import Mathlib

/-!
SmartLights: scheduler containers, scheduler and DCP response parser.

A shallow embedding of `src/lib/scheduler` (PriorityQueue, DeltaList, Scheduler),
of `src/lib/infrastructure/DCP` (DCPResponse, DCPRequest), of
`src/lib/infrastructure/PersistentDID.cpp` and of `src/src/ESP8266_IRS.cpp`.

Conventions of the embedding

* A singly linked list with a sentinel `HEAD` is the Lean list of the nodes
  that follow `HEAD`; what the algorithms read from `HEAD` itself is kept
  next to that list.
* A dereference of a null pointer and an array access outside its bounds
  are faults: the operation returns `none`.  Where a claim depends on what a
  read outside the process table finds, `entryReading` takes that as a
  parameter instead.
* `int` values are `Int`; 32-bit unsigned accumulators are reduced
  modulo `2 ^ 32` where the source relies on wrap-around.
* A copy of a struct is a copy.  A copy of a container object copies its
  `implementation` pointer, so both names denote the same list; the release
  of storage by destructors is not followed, except in `Lifetime`, which
  follows the constructor of the scheduler.
* The name `subDeviceId` in `parseSessionId` and `parseBody` is declared in
  neither method.  `parseSessionIdLoop` and `parseBodyLoop` read it as the
  array of the constructor; `parseSessionIdLoopWith` and `parseBodyLoopWith`
  take the reading as a parameter.
-/

namespace SmartLights

/-! ## PriorityQueue (src/lib/scheduler/PriorityQueue.cpp) -/

/-- A node of the queue: `PriorityNode<T>` without its `next` pointer. -/
structure PriorityNode (T : Type) where
  item : T
  priority : Int
deriving DecidableEq, Repr

/-- The priority stored in the sentinel by the default constructor
`PriorityNode()`. -/
def HEAD_PRIORITY : Int := 0

/-- The queue: the nodes after `HEAD`, and the `count` field. -/
structure PriorityQueue (T : Type) where
  nodes : List (PriorityNode T)
  count : Int
deriving DecidableEq, Repr

namespace PriorityQueue

variable {T : Type}

/-- The constructor `PriorityQueue()`: only the sentinel, `count = 0`. -/
def new : PriorityQueue T := { nodes := [], count := 0 }

/-- The loop of `enqueue` followed by the splice.  `curPriority` is
`current->priority`, `rest` the nodes after `current`.  The loop tests
`current->next && current->priority >= priority`; the result is the list of
nodes after `current` once `node` has been linked in. -/
def enqueueAfter (curPriority : Int) (rest : List (PriorityNode T))
    (node : PriorityNode T) : List (PriorityNode T) :=
  match rest with
  | [] => [node]
  | n :: rest1 =>
    if curPriority ≥ node.priority then
      n :: enqueueAfter n.priority rest1 node
    else
      node :: n :: rest1

/-- The method `enqueue(item, priority)`: the walk starts at `HEAD`. -/
def enqueue (q : PriorityQueue T) (item : T) (priority : Int) : PriorityQueue T :=
  { nodes := enqueueAfter HEAD_PRIORITY q.nodes { item := item, priority := priority },
    count := q.count + 1 }

/-- The method `dequeue()`: `HEAD->next` is read without a null check, so an
empty queue faults. -/
def dequeue (q : PriorityQueue T) : Option (T × PriorityQueue T) :=
  match q.nodes with
  | [] => none
  | removed :: rest => some (removed.item, { nodes := rest, count := q.count - 1 })

/-- The loop of `remove(item)`: every node holding `item` is unlinked and
`count` is decremented once per unlinked node. -/
def removeLoop [DecidableEq T] (item : T) :
    List (PriorityNode T) → Int → List (PriorityNode T) × Int
  | [], c => ([], c)
  | n :: rest, c =>
    if n.item ≠ item then
      let r := removeLoop item rest c
      (n :: r.1, r.2)
    else
      removeLoop item rest (c - 1)

/-- The method `remove(item)`. -/
def remove [DecidableEq T] (q : PriorityQueue T) (item : T) : PriorityQueue T :=
  let r := removeLoop item q.nodes q.count
  { nodes := r.1, count := r.2 }

/-- The method `isEmpty()`: `!HEAD->next`. -/
def isEmpty (q : PriorityQueue T) : Bool := q.nodes.isEmpty

/-- The method `peek()`: `T()` on an empty queue, else the first item. -/
def peek [Inhabited T] (q : PriorityQueue T) : T :=
  match q.nodes with
  | [] => default
  | n :: _ => n.item

/-- Enqueue a sequence of `(item, priority)` pairs, first pair first. -/
def enqueueAll (q : PriorityQueue T) (xs : List (T × Int)) : PriorityQueue T :=
  xs.foldl (fun acc x => acc.enqueue x.1 x.2) q

/-- Call `dequeue` until the queue is empty and collect the items.  The
argument `fuel` bounds the number of calls; the length of the queue is
enough. -/
def drain : Nat → PriorityQueue T → List T
  | 0, _ => []
  | fuel + 1, q =>
    match q.dequeue with
    | none => []
    | some (x, q1) => x :: drain fuel q1

end PriorityQueue

/-! ## DeltaList (src/lib/scheduler/DeltaList.cpp) -/

/-- The class `DeltaItem<T>`. -/
structure DeltaItem (T : Type) where
  value : T
  delta : Int
deriving DecidableEq, Repr

/-- The list: `headItem` is `HEAD->item` (a pointer, `none` when null) and
`nodes` are the items of the nodes after `HEAD`, each of which owns an item. -/
structure DeltaList (T : Type) where
  headItem : Option (DeltaItem T)
  nodes : List (DeltaItem T)
deriving DecidableEq, Repr

namespace DeltaList

variable {T : Type}

/-- The constructor: `HEAD = new DeltaNode(NULL)`. -/
def new : DeltaList T := { headItem := none, nodes := [] }

/-- The loop of `insert` followed by the splice.  `cur` is `current->item`
and `rest` the nodes after `current`.  The loop tests
`current->next && current->item->delta <= delta`; reading `delta` through a
null `item` is a fault.  The result is the list of nodes after `current`. -/
def insertAfter (cur : Option (DeltaItem T)) (rest : List (DeltaItem T))
    (item : T) (delta : Int) : Option (List (DeltaItem T)) :=
  match rest with
  | [] => some [{ value := item, delta := delta }]
  | n :: rest1 =>
    match cur with
    | none => none
    | some c =>
      if c.delta ≤ delta then
        (insertAfter (some n) rest1 item (delta - c.delta)).map (fun r => n :: r)
      else
        some ({ value := item, delta := delta }
              :: { value := n.value, delta := n.delta - delta } :: rest1)

/-- The method `insert(item, delta0)`. -/
def insert (l : DeltaList T) (item : T) (delta0 : Int) : Option (DeltaList T) :=
  (insertAfter l.headItem l.nodes item delta0).map
    (fun r => { headItem := l.headItem, nodes := r })

/-- The method `decrement(value)`: the body is
`HEAD->next->item->delta--`; an empty list faults. -/
def decrement (l : DeltaList T) (_value : Int) : Option (DeltaList T) :=
  match l.nodes with
  | [] => none
  | n :: rest =>
    some { headItem := l.headItem,
           nodes := { value := n.value, delta := n.delta - 1 } :: rest }

/-- The method `peek()`: `DeltaItem(T(), -1)` on an empty list. -/
def peek [Inhabited T] (l : DeltaList T) : DeltaItem T :=
  match l.nodes with
  | [] => { value := default, delta := -1 }
  | n :: _ => n

/-- The method `remove()`: `HEAD->next` is read without a null check. -/
def remove (l : DeltaList T) : Option (T × DeltaList T) :=
  match l.nodes with
  | [] => none
  | first :: rest => some (first.value, { headItem := l.headItem, nodes := rest })

/-- The method `isEmpty()`: the body is `return (HEAD->next != NULL)`. -/
def isEmpty (l : DeltaList T) : Bool := !l.nodes.isEmpty

/-- Insert a sequence of `(value, delta0)` pairs, first pair first; a fault
in one call ends the sequence. -/
def insertAll (l : DeltaList T) : List (T × Int) → Option (DeltaList T)
  | [] => some l
  | x :: xs => (l.insert x.1 x.2).bind (fun l1 => insertAll l1 xs)

/-- The absolute fire time of `v`: the sum of the stored deltas from the head
of the list up to and including the first node holding `v`. -/
def fireTime [DecidableEq T] (v : T) : List (DeltaItem T) → Option Int
  | [] => none
  | n :: rest =>
    if n.value = v then some n.delta
    else (fireTime v rest).map (fun t => n.delta + t)

end DeltaList

/-! ## Scheduler (src/lib/scheduler/Scheduler.h, Scheduler.cpp) -/

/-- The constant `MAX_PROCESSES`. -/
def MAX_PROCESSES : Nat := 128

/-- The constant `MIN_INTERVAL`. -/
def MIN_INTERVAL : Int := 3

/-- The enumeration `ProcessState`; `DEAD` is the value `0`. -/
inductive ProcessState where
  | DEAD
  | READY
  | EXECUTING
  | SLEEPING
  | SUSPENDED
deriving DecidableEq, Repr

/-- A `Runnable` is known to the scheduler by its address only. -/
abbrev Runnable := Nat

/-- The struct `ProcessData`; `process` is a pointer, `none` when null. -/
structure ProcessData where
  process : Option Runnable
  state : ProcessState
  priority : Int
  repetitions : Int
  interval : Int
deriving DecidableEq, Repr

/-- The value `{ 0 }` of `ProcessData`. -/
def ProcessData.zero : ProcessData :=
  { process := none, state := ProcessState.DEAD, priority := 0, repetitions := 0, interval := 0 }

/-- The class `SchedulerImplementation`.  The array `ptable` is a list; a
well-formed state has `MAX_PROCESSES` entries. -/
structure Scheduler where
  ptable : List ProcessData
  readyList : PriorityQueue Int
  sleepingList : DeltaList Int
  currentPid : Int
  nextValidPid : Int
  started : Bool
deriving DecidableEq, Repr

/-- What the body of `run()` of a runnable does to the scheduler, nested
scheduler calls included; `none` when it faults. -/
abbrev RunBehaviour := Runnable → Scheduler → Option Scheduler

namespace Scheduler

/-- The members after the constructor `SchedulerImplementation()`, with
`readyList` and `sleepingList` taken as the empty lists the constructor means
to install.  The two assignments of temporaries in its body, which leave both
members pointing to deleted storage, are followed in `Lifetime.construct`. -/
def init : Scheduler :=
  { ptable := List.replicate MAX_PROCESSES ProcessData.zero,
    readyList := PriorityQueue.new,
    sleepingList := DeltaList.new,
    currentPid := -1,
    nextValidPid := 0,
    started := false }

/-- A read of `ptable[pid]`: outside `[0, MAX_PROCESSES)` the read is reported
as a fault.  The code itself reads the memory next to the table there and
goes on; `entryReading` follows that. -/
def entry (s : Scheduler) (pid : Int) : Option ProcessData :=
  if 0 ≤ pid ∧ pid < MAX_PROCESSES then s.ptable[pid.toNat]? else none

/-- A write of `ptable[pid]`: outside `[0, MAX_PROCESSES)` the write is
reported as a fault.  The code itself writes to the memory next to the table
there and goes on. -/
def setEntry (s : Scheduler) (pid : Int) (d : ProcessData) : Option Scheduler :=
  if 0 ≤ pid ∧ pid < MAX_PROCESSES ∧ pid.toNat < s.ptable.length then
    some { s with ptable := s.ptable.set pid.toNat d }
  else none

/-- The method `getNextAvailablePid()`: one `if`, so one probe past the hint. -/
def getNextAvailablePid (s : Scheduler) : Option Int :=
  match s.entry s.nextValidPid with
  | none => none
  | some e =>
    if e.state ≠ ProcessState.DEAD then
      if (s.nextValidPid + 1) % (MAX_PROCESSES : Int) = s.nextValidPid then some (-1)
      else some ((s.nextValidPid + 1) % (MAX_PROCESSES : Int))
    else some s.nextValidPid

/-- The private method `repeatProcess(pid, process)`: the state `SLEEPING` is
written to the by-value parameter only. -/
def repeatProcess (s : Scheduler) (pid : Int) (process : ProcessData) : Option Scheduler :=
  (s.sleepingList.insert pid process.interval).map
    (fun l => { s with sleepingList := l })

/-- The method `postExecute(pid)`: `process` is a copy of the table entry, so
the decrement of `repetitions` stays local. -/
def postExecute (s : Scheduler) (pid : Int) : Option Scheduler :=
  match s.entry pid with
  | none => none
  | some process =>
    if process.repetitions > 0 then
      if process.repetitions - 1 ≤ 0 then
        s.setEntry pid ProcessData.zero
      else
        s.repeatProcess pid { process with repetitions := process.repetitions - 1 }
    else if process.repetitions < 0 then
      s.repeatProcess pid process
    else some s

/-- The method `switchContext(nextPid)`: `EXECUTING` is written to the local
copy `nextProcess`, the table entry keeps its state. -/
def switchContext (run : RunBehaviour) (s : Scheduler) (nextPid : Int) : Option Scheduler :=
  match s.entry nextPid with
  | none => none
  | some nextProcess =>
    match nextProcess.process with
    | none => none
    | some r =>
      match run r { s with currentPid := nextPid } with
      | none => none
      | some s1 => s1.postExecute nextPid

/-- The method `reschedule()` up to the call of `switchContext`: the state at
that point and the PID handed to `switchContext`, or no PID when the method
returns early. -/
def rescheduleSelect (s : Scheduler) : Option (Scheduler × Option Int) :=
  if s.readyList.isEmpty then some (s, none)
  else
    match s.entry s.currentPid with
    | none => none
    | some cur =>
      if cur.state = ProcessState.EXECUTING then
        match s.entry s.readyList.peek with
        | none => none
        | some nxt =>
          if nxt.priority < cur.priority then some (s, none)
          else
            match s.setEntry s.currentPid { cur with state := ProcessState.READY } with
            | none => none
            | some s1 =>
              match (s1.readyList.enqueue s.currentPid cur.priority).dequeue with
              | none => none
              | some (nextPid, q) => some ({ s1 with readyList := q }, some nextPid)
      else
        match s.readyList.dequeue with
        | none => none
        | some (nextPid, q) => some ({ s with readyList := q }, some nextPid)

/-- The method `reschedule()`. -/
def reschedule (run : RunBehaviour) (s : Scheduler) : Option Scheduler :=
  match s.rescheduleSelect with
  | none => none
  | some (s1, none) => some s1
  | some (s1, some nextPid) => s1.switchContext run nextPid

/-- The method `yield()`. -/
def yield (run : RunBehaviour) (s : Scheduler) : Option Scheduler :=
  s.reschedule run

/-- The method `schedule(process, priority)`: the new state and the value
returned. -/
def schedule (run : RunBehaviour) (s : Scheduler) (process : Runnable) (priority : Int) :
    Option (Scheduler × Int) :=
  match s.getNextAvailablePid with
  | none => none
  | some pid =>
    if pid < 0 then some (s, pid)
    else
      match s.entry pid with
      | none => none
      | some e =>
        match s.setEntry pid
            { e with process := some process, priority := priority,
                     state := ProcessState.READY } with
        | none => none
        | some s1 =>
          let s2 : Scheduler :=
            { s1 with nextValidPid := pid + 1,
                      readyList := s1.readyList.enqueue pid priority }
          if s2.started then (s2.yield run).map (fun s3 => (s3, pid))
          else some (s2, pid)

/-- The method `ready(pid)`: `readyProcess` is a copy of the table entry, so
`READY` is written to the copy only. -/
def ready (run : RunBehaviour) (s : Scheduler) (pid : Int) : Option (Scheduler × Int) :=
  match s.entry pid with
  | none => none
  | some readyProcess =>
    if readyProcess.state ≠ ProcessState.SUSPENDED then some (s, -1)
    else
      let s1 : Scheduler :=
        { s with readyList := s.readyList.enqueue pid readyProcess.priority }
      match s1.entry s1.currentPid with
      | none => none
      | some cur =>
        if readyProcess.priority > cur.priority then
          (s1.reschedule run).map (fun s2 => (s2, 0))
        else some (s1, 0)

/-- The method `kill()`. -/
def kill (s : Scheduler) : Option (Scheduler × Int) :=
  (s.setEntry s.currentPid ProcessData.zero).map (fun s1 => (s1, 0))

/-- The states the constructor, `schedule` and `kill` produce while `start`
has not been called. -/
inductive Reachable (run : RunBehaviour) : Scheduler → Prop where
  | init : Reachable run Scheduler.init
  | schedule (s s1 : Scheduler) (process : Runnable) (priority pid : Int) :
      Reachable run s → s.schedule run process priority = some (s1, pid) →
      Reachable run s1
  | kill (s s1 : Scheduler) (r : Int) :
      Reachable run s → s.kill = some (s1, r) → Reachable run s1

/-- The number of process-table slots whose state is not `DEAD`. -/
def liveCount (s : Scheduler) : Nat :=
  (s.ptable.filter (fun e => decide (e.state ≠ ProcessState.DEAD))).length

/-- The PIDs held by `readyList`, first node first. -/
def readyPids (s : Scheduler) : List Int :=
  s.readyList.nodes.map (fun n => n.item)

/-- The shape of the table after `l.length` calls of `schedule` on a fresh
scheduler that has not been started: the entries `l` of the scheduled
processes, then untouched slots, and the hint right behind `l`. -/
def PrefixTable (s : Scheduler) (l : List ProcessData) : Prop :=
  l.length ≤ MAX_PROCESSES ∧
  (∀ e ∈ l, e.state = ProcessState.READY) ∧
  s.ptable = l ++ List.replicate (MAX_PROCESSES - l.length) ProcessData.zero ∧
  s.nextValidPid = l.length ∧ s.started = false ∧ s.currentPid = -1

/-- Call `schedule` for each `(runnable, priority)` pair, first pair first; a
fault in one call ends the sequence. -/
def scheduleAll (run : RunBehaviour) (s : Scheduler) : List (Runnable × Int) → Option Scheduler
  | [] => some s
  | x :: xs => (s.schedule run x.1 x.2).bind (fun r => scheduleAll run r.1 xs)

/-- A `run()` that returns at once without calling the scheduler. -/
def idleRun : RunBehaviour := fun _ s => some s

/-- A process-table entry of a one-shot process. -/
def oneShot (r : Runnable) (st : ProcessState) (priority : Int) : ProcessData :=
  { process := some r, state := st, priority := priority, repetitions := 0, interval := 0 }

/-- The table whose first slots are `l` and whose other slots are free. -/
def tableOf (l : List ProcessData) : List ProcessData :=
  l ++ List.replicate (MAX_PROCESSES - l.length) ProcessData.zero

/-- A full table: every slot holds a `READY` process of priority 1 that is
queued in `readyList`; the allocation hint is 0. -/
def fullTableState : Scheduler :=
  { ptable := List.replicate MAX_PROCESSES (oneShot 1 ProcessState.READY 1),
    readyList := PriorityQueue.new.enqueueAll
      ((List.range MAX_PROCESSES).map (fun i => ((i : Int), (1 : Int)))),
    sleepingList := DeltaList.new,
    currentPid := -1,
    nextValidPid := 0,
    started := false }

/-- Process 0 (priority `pA`, table state `stA`) is the current process and
process 1 (priority `pB`, `READY`) is the only node of `readyList`. -/
def yieldState (stA : ProcessState) (pA pB : Int) : Scheduler :=
  { ptable := tableOf [oneShot 10 stA pA, oneShot 11 ProcessState.READY pB],
    readyList := { nodes := [{ item := 1, priority := pB }], count := 1 },
    sleepingList := DeltaList.new,
    currentPid := 0,
    nextValidPid := 2,
    started := true }

/-- Process 0 (priority `pA`, `EXECUTING`) is the current process, process 1
(priority `pB`) is `SUSPENDED` and `readyList` is empty. -/
def suspendedState (pA pB : Int) : Scheduler :=
  { ptable := tableOf [oneShot 10 ProcessState.EXECUTING pA,
                       oneShot 11 ProcessState.SUSPENDED pB],
    readyList := PriorityQueue.new,
    sleepingList := DeltaList.new,
    currentPid := 0,
    nextValidPid := 2,
    started := true }

end Scheduler

/-! ## DCPResponse (src/lib/infrastructure/DCP/DCPResponse.h, DCPResponse.cpp) -/

namespace DCP

/-- The constant `DEVICEID_LENGTH`. -/
def DEVICEID_LENGTH : Nat := 16

/-- The constant `SUBDEVICEID_LENGTH`. -/
def SUBDEVICEID_LENGTH : Nat := 8

/-- The constant `SESSIONID_LENGTH`. -/
def SESSIONID_LENGTH : Nat := 32

/-- The constant `MAX_LONG_DIGITS` of `parseSessionTimestamp`. -/
def MAX_LONG_DIGITS : Nat := 10

/-- The constant `MAX_INT_DIGITS` of `parseContentLength`. -/
def MAX_INT_DIGITS : Nat := 10

/-- The constant `Implementation::MAX_ATTEMPTS`. -/
def MAX_ATTEMPTS : Int := 20

/-- The constant `Implementation::DELAY`. -/
def DELAY : Int := 100

/-- The value `SUCCESS` of `DCPStatus`. -/
def SUCCESS : Int := 20

/-- The value `SUCCESS_NOCONTENT` of `DCPStatus`. -/
def SUCCESS_NOCONTENT : Int := 24

/-- The value `SERVER_ERROR` of `DCPStatus`. -/
def SERVER_ERROR : Int := 50

/-- The value `RESPONSE_TIMEOUT` of `DCPStatus`. -/
def RESPONSE_TIMEOUT : Int := 54

/-- The value `INVALID_RESPONSE` of `DCPStatus`. -/
def INVALID_RESPONSE : Int := 55

/-- The width of `unsigned long` and of `unsigned int` on the target. -/
def UINT_MODULUS : Nat := 2 ^ 32

/-- The public members of `DCPResponse`.  `statusCode` is an `Int` because
`parseStatus` returns any sum of two digits as a `DCPStatus`. -/
structure DCPResponse where
  deviceId : String
  subDeviceId : String
  sessionId : String
  sessionTimestamp : Nat
  statusCode : Int
  contentLength : Nat
  data : String
deriving DecidableEq, Repr

/-- What the constructor finds in storage it reads before writing it: the
members `sessionTimestamp`, `statusCode` and `contentLength`, which have no
initialiser, and the text `String(data)` reads from the array
`new char[contentLength]`, which no parse method writes. -/
structure Indeterminate where
  sessionTimestamp : Nat
  statusCode : Int
  contentLength : Nat
  heapText : String
deriving DecidableEq, Repr

/-- Storage that happens to be zero. -/
def Indeterminate.zero : Indeterminate :=
  { sessionTimestamp := 0, statusCode := 0, contentLength := 0, heapText := "" }

/-- Modelled from the spec: the `ByteStream` capability that `WiFiClient`
provides; the class itself belongs to the platform library.  The stream is the
list of what the parser finds each time it looks: `some b` is a byte that has
arrived, `none` is a moment at which nothing has arrived yet and which one
`Scheduler::sleep(DELAY)` lets pass.  At the end of the list nothing arrives
any more.  An empty stream peeks and reads as 0, the value `waitForByte`
tests for. -/
abbrev WiFiClient := List (Option Char)

/-- The state of one parse: the members of `Implementation` (`response`,
`client`, `attempts`), the buffers `deviceId`, `subDeviceId` and `sessionId`
of the constructor, and the number of calls of `Scheduler::sleep` so far. -/
structure ParseState where
  response : DCPResponse
  client : WiFiClient
  attempts : Int
  sleeps : Nat
  deviceId : List Char
  subDeviceId : List Char
  sessionId : List Char
deriving DecidableEq, Repr

/-- The character code as the `int` that `peek` and `read` return. -/
def code (c : Char) : Int := (c.toNat : Int)

/-- The call `client.peek()`. -/
def peek (st : ParseState) : Int :=
  match st.client with
  | some c :: _ => code c
  | _ => 0

/-- The call `client.read()`: the value and the state with the byte consumed. -/
def read (st : ParseState) : Int × ParseState :=
  match st.client with
  | some c :: rest => (code c, { st with client := rest })
  | _ => (0, st)

/-- The conversion of an `int` to the `char` stored in a buffer. -/
def toChar (v : Int) : Char := Char.ofNat (v % 256).toNat

/-- The call `scheduler.sleep(DELAY)` as the parser sees it: the call is
counted and one moment without data passes. -/
def sleep (st : ParseState) : ParseState :=
  { st with
      sleeps := st.sleeps + 1,
      client := match st.client with
        | none :: rest => rest
        | other => other }

/-- A write `buffer[index] = c`: a fault outside the array. -/
def writeBuffer (buffer : List Char) (index : Nat) (c : Char) : Option (List Char) :=
  if index < buffer.length then some (buffer.set index c) else none

/-- The conversion `String(buffer)` of a NUL-terminated array: a fault when
the array holds no NUL, since the read then runs past it. -/
def cString (buffer : List Char) : Option String :=
  if buffer.all (fun c => c ≠ Char.ofNat 0) then none
  else some (String.mk (buffer.takeWhile (fun c => c ≠ Char.ofNat 0)))

/-- The method `handleResponseTimeout()`. -/
def handleResponseTimeout (st : ParseState) : ParseState :=
  { st with response :=
      { deviceId := "", subDeviceId := "", sessionId := "", sessionTimestamp := 0,
        statusCode := RESPONSE_TIMEOUT, contentLength := 0, data := "" } }

/-- The method `handleInvalidResponse()`. -/
def handleInvalidResponse (st : ParseState) : ParseState :=
  { st with response :=
      { deviceId := "", subDeviceId := "", sessionId := "", sessionTimestamp := 0,
        statusCode := INVALID_RESPONSE, contentLength := 0, data := "" } }

/-- The loop of `waitForByte()`.  The first argument bounds the number of
iterations for the recursion; the bound `waitForByte` passes is never used
up, see `waitForByteLoop_fuel`. -/
def waitForByteLoop : Nat → ParseState → Bool × ParseState
  | 0, st => (false, st)
  | fuel + 1, st =>
    if peek st = 0 then
      if st.attempts > MAX_ATTEMPTS then (false, handleResponseTimeout st)
      else waitForByteLoop fuel (sleep { st with attempts := st.attempts + 1 })
    else (true, st)

/-- The iterations `waitForByte` can make from `st`: one per value of
`attempts` up to `MAX_ATTEMPTS`, and the one that ends the loop. -/
def waitBound (st : ParseState) : Nat := (MAX_ATTEMPTS + 1 - st.attempts).toNat + 1

/-- The method `waitForByte()`. -/
def waitForByte (st : ParseState) : Bool × ParseState :=
  waitForByteLoop (waitBound st) st

/-- The loop of `parseDeviceId`; `remaining` is `DEVICEID_LENGTH - charIndex`.
The flag is false when the method returns false from inside the loop. -/
def parseDeviceIdLoop : Nat → Nat → ParseState → Option (Bool × ParseState)
  | 0, _, st => some (true, st)
  | remaining + 1, charIndex, st =>
    match waitForByte st with
    | (false, st1) => some (false, st1)
    | (true, st1) =>
      if peek st1 = code ':' ∨ peek st1 = code '\n' then some (true, st1)
      else
        match writeBuffer (read st1).2.deviceId charIndex (toChar (read st1).1) with
        | none => none
        | some b =>
          parseDeviceIdLoop remaining (charIndex + 1) { (read st1).2 with deviceId := b }

/-- The method `parseDeviceId(deviceId)`. -/
def parseDeviceId (st : ParseState) : Option (Bool × ParseState) :=
  match parseDeviceIdLoop DEVICEID_LENGTH 0 st with
  | none => none
  | some (false, st1) => some (false, st1)
  | some (true, st1) =>
    if peek st1 = code ':' then some (true, (read st1).2) else some (true, st1)

/-- The loop of `parseSubDeviceId`; `remaining` is
`SUBDEVICEID_LENGTH - charIndex`. -/
def parseSubDeviceIdLoop : Nat → Nat → ParseState → Option (Bool × ParseState)
  | 0, _, st => some (true, st)
  | remaining + 1, charIndex, st =>
    match waitForByte st with
    | (false, st1) => some (false, st1)
    | (true, st1) =>
      if peek st1 = code '\n' then some (true, st1)
      else
        match writeBuffer (read st1).2.subDeviceId charIndex (toChar (read st1).1) with
        | none => none
        | some b =>
          parseSubDeviceIdLoop remaining (charIndex + 1) { (read st1).2 with subDeviceId := b }

/-- The method `parseSubDeviceId(subDeviceId)`. -/
def parseSubDeviceId (st : ParseState) : Option (Bool × ParseState) :=
  match parseSubDeviceIdLoop SUBDEVICEID_LENGTH 0 st with
  | none => none
  | some (false, st1) => some (false, st1)
  | some (true, st1) =>
    if (read st1).1 ≠ code '\n' then some (false, handleInvalidResponse (read st1).2)
    else some (true, (read st1).2)

/-- The loop of `parseSessionId`; `remaining` is `SESSIONID_LENGTH - charIndex`.
The statement in the loop is `subDeviceId[charIndex++] = client.read()`: the
parameter `sessionId` is not written.  The name `subDeviceId` is not declared
in the method; here it is read as the 9-byte array of the constructor, so the
tenth byte is a fault.  `parseSessionIdLoopWith` leaves the reading open. -/
def parseSessionIdLoop : Nat → Nat → ParseState → Option (Bool × ParseState)
  | 0, _, st => some (true, st)
  | remaining + 1, charIndex, st =>
    match waitForByte st with
    | (false, st1) => some (false, st1)
    | (true, st1) =>
      if peek st1 = code ':' then some (true, st1)
      else
        match writeBuffer (read st1).2.subDeviceId charIndex (toChar (read st1).1) with
        | none => none
        | some b =>
          parseSessionIdLoop remaining (charIndex + 1) { (read st1).2 with subDeviceId := b }

/-- The method `parseSessionId(sessionId)`. -/
def parseSessionId (st : ParseState) : Option (Bool × ParseState) :=
  match parseSessionIdLoop SESSIONID_LENGTH 0 st with
  | none => none
  | some (false, st1) => some (false, st1)
  | some (true, st1) =>
    if (read st1).1 ≠ code ':' then some (false, handleInvalidResponse (read st1).2)
    else some (true, (read st1).2)

/-- The loop of `parseSessionTimestamp`; `remaining` is
`MAX_LONG_DIGITS - digitIndex` and `digits` holds the first `digitIndex`
entries of the array.  No digits are returned when the method returns 0 from
inside the loop. -/
def parseSessionTimestampLoop : Nat → List Char → ParseState → Option (List Char) × ParseState
  | 0, digits, st => (some digits, st)
  | remaining + 1, digits, st =>
    match waitForByte st with
    | (false, st1) => (none, st1)
    | (true, st1) =>
      if peek st1 = code '\n' then (some digits, st1)
      else if code (toChar (read st1).1) < code '0' ∨ code (toChar (read st1).1) > code '9' then
        (none, handleInvalidResponse (read st1).2)
      else
        parseSessionTimestampLoop remaining (digits ++ [toChar (read st1).1]) (read st1).2

/-- The conversion loop `while(--digitIndex >= 0)` of `parseSessionTimestamp`
and of `parseContentLength`, given the digits in the order the loop visits
them.  The accumulator is 32 bits wide; `none` when the overflow test
`tempValue < accumulator` fires. -/
def convertLoop : List Char → Nat → Option Nat
  | [], acc => some acc
  | d :: ds, acc =>
    if (acc * 10 + (code d - code '0').toNat) % UINT_MODULUS < acc then none
    else convertLoop ds ((acc * 10 + (code d - code '0').toNat) % UINT_MODULUS)

/-- The method `parseSessionTimestamp()`.  The index runs down from the last
digit stored, so the loop visits the digits last to first. -/
def parseSessionTimestamp (st : ParseState) : Nat × ParseState :=
  match parseSessionTimestampLoop MAX_LONG_DIGITS [] st with
  | (none, st1) => (0, st1)
  | (some digits, st1) =>
    if (read st1).1 ≠ code '\n' then (0, handleInvalidResponse (read st1).2)
    else
      match convertLoop digits.reverse 0 with
      | none => (0, handleInvalidResponse (read st1).2)
      | some timestamp => (timestamp, (read st1).2)

/-- The method `parseStatus()`. -/
def parseStatus (st : ParseState) : Int × ParseState :=
  match waitForByte st with
  | (false, st1) =>
    ((handleResponseTimeout st1).response.statusCode, handleResponseTimeout st1)
  | (true, st1) =>
    if ((read st1).1 - code '0') * 10 > 50 ∨ ((read st1).1 - code '0') * 10 < 0 then
      ((handleInvalidResponse (read st1).2).response.statusCode,
        handleInvalidResponse (read st1).2)
    else if (read (read st1).2).1 - code '0' < 0 ∨ (read (read st1).2).1 - code '0' > 9 then
      ((handleInvalidResponse (read (read st1).2).2).response.statusCode,
        handleInvalidResponse (read (read st1).2).2)
    else
      (((read st1).1 - code '0') * 10 + ((read (read st1).2).1 - code '0'),
        (read (read st1).2).2)

/-- The loop of `parseContentLength`; `remaining` is
`MAX_INT_DIGITS - digitIndex`. -/
def parseContentLengthLoop : Nat → List Char → ParseState → Option (List Char) × ParseState
  | 0, digits, st => (some digits, st)
  | remaining + 1, digits, st =>
    match waitForByte st with
    | (false, st1) => (none, st1)
    | (true, st1) =>
      if peek st1 = code '\n' then (some digits, st1)
      else if code (toChar (read st1).1) < code '0' ∨ code (toChar (read st1).1) > code '9' then
        (none, handleInvalidResponse (read st1).2)
      else
        parseContentLengthLoop remaining (digits ++ [toChar (read st1).1]) (read st1).2

/-- The method `parseContentLength()`. -/
def parseContentLength (st : ParseState) : Nat × ParseState :=
  match parseContentLengthLoop MAX_INT_DIGITS [] st with
  | (none, st1) => (0, st1)
  | (some digits, st1) =>
    if (read st1).1 ≠ code '\n' then (0, handleInvalidResponse (read st1).2)
    else
      match convertLoop digits.reverse 0 with
      | none => (0, handleInvalidResponse (read st1).2)
      | some contentLength => (contentLength, (read st1).2)

/-- The loop of `parseBody`; `remaining` is `response.contentLength -
charIndex`.  The statement in the loop is
`subDeviceId[charIndex++] = client.read()`: the parameter `body` is not
written.  The name `subDeviceId` is not declared in the method; here it is
read as the 9-byte array of the constructor.  `parseBodyLoopWith` leaves the
reading open. -/
def parseBodyLoop : Nat → Nat → ParseState → Option (Bool × ParseState)
  | 0, _, st => some (true, st)
  | remaining + 1, charIndex, st =>
    match waitForByte st with
    | (false, st1) => some (false, st1)
    | (true, st1) =>
      match writeBuffer (read st1).2.subDeviceId charIndex (toChar (read st1).1) with
      | none => none
      | some b =>
        parseBodyLoop remaining (charIndex + 1) { (read st1).2 with subDeviceId := b }

/-- The method `parseBody(body)`. -/
def parseBody (st : ParseState) : Option (Bool × ParseState) :=
  parseBodyLoop st.response.contentLength 0 st

/-- The state in which the constructor starts: strings empty, the members
without initialiser as found, the buffers zeroed, no attempt made. -/
def initialState (ind : Indeterminate) (client : WiFiClient) : ParseState :=
  { response :=
      { deviceId := "", subDeviceId := "", sessionId := "",
        sessionTimestamp := ind.sessionTimestamp, statusCode := ind.statusCode,
        contentLength := ind.contentLength, data := "" },
    client := client,
    attempts := 0,
    sleeps := 0,
    deviceId := List.replicate (DEVICEID_LENGTH + 1) (Char.ofNat 0),
    subDeviceId := List.replicate (SUBDEVICEID_LENGTH + 1) (Char.ofNat 0),
    sessionId := List.replicate (SESSIONID_LENGTH + 1) (Char.ofNat 0) }

/-- The last three statements of the constructor: the identifiers are copied
from the buffers into the record. -/
def storeIdentifiers (st : ParseState) : Option ParseState :=
  match cString st.deviceId, cString st.subDeviceId, cString st.sessionId with
  | some d, some sd, some si =>
    some { st with response :=
      { st.response with deviceId := d, subDeviceId := sd, sessionId := si } }
  | _, _, _ => none

/-- The constructor from the status code on: `statusCode = parseStatus()`,
the test for a body, whose four inequalities are joined by `||`, and the
copy of the identifiers. -/
def parseFromStatus (ind : Indeterminate) (st : ParseState) : Option ParseState :=
  let st1 : ParseState :=
    { (parseStatus st).2 with response :=
        { (parseStatus st).2.response with statusCode := (parseStatus st).1 } }
  if st1.response.statusCode ≠ SUCCESS_NOCONTENT ∨ st1.response.statusCode ≠ SERVER_ERROR ∨
      st1.response.statusCode ≠ RESPONSE_TIMEOUT ∨
      st1.response.statusCode ≠ INVALID_RESPONSE then
    let st2 : ParseState :=
      { (parseContentLength st1).2 with response :=
          { (parseContentLength st1).2.response with
              contentLength := (parseContentLength st1).1 } }
    if st2.response.contentLength ≠ 0 then
      match parseBody st2 with
      | none => none
      | some (false, st3) => some st3
      | some (true, st3) =>
        storeIdentifiers { st3 with response := { st3.response with data := ind.heapText } }
    else storeIdentifiers st2
  else storeIdentifiers st1

/-- The constructor `DCPResponse(WiFiClient &client)`: the state when it
returns, or `none` when it faults. -/
def parseResponse (ind : Indeterminate) (client : WiFiClient) : Option ParseState :=
  match waitForByte (initialState ind client) with
  | (false, st1) => some st1
  | (true, st1) =>
    match parseDeviceId st1 with
    | none => none
    | some (false, st2) => some st2
    | some (true, st2) =>
      match parseSubDeviceId st2 with
      | none => none
      | some (false, st3) => some st3
      | some (true, st3) =>
        match parseSessionId st3 with
        | none => none
        | some (false, st4) => some st4
        | some (true, st4) =>
          let st5 : ParseState :=
            { (parseSessionTimestamp st4).2 with response :=
                { (parseSessionTimestamp st4).2.response with
                    sessionTimestamp := (parseSessionTimestamp st4).1 } }
          if st5.response.statusCode = INVALID_RESPONSE then some st5
          else parseFromStatus ind st5

/-- The stall budget so far: every attempt was one sleep, and the counter has
not passed `MAX_ATTEMPTS + 1`. -/
def WithinBudget (st : ParseState) : Prop :=
  (st.sleeps : Int) = st.attempts ∧ st.attempts ≤ MAX_ATTEMPTS + 1

/-- A stream on which every byte of `text` has arrived and nothing follows. -/
def delivered (text : String) : WiFiClient := text.toList.map some

/-- The response of scenario S4. -/
def happyPathText : String :=
  "DEV0000000000001:SUB1\nSESS0000000000000000000000000001:42\n20\n5\nhello"

end DCP

/-! ## Scheduler: tick, suspend, scheduleInterval (src/lib/scheduler/Scheduler.cpp) -/

namespace Scheduler

/-- The loop `while(sleepingList.peek().delta <= 0)` of `tick()`.  The local
`sleepingList` and `readyList` share their lists with the members; the table
entry of the awoken process is read for its priority and is not written.  On
an empty list `peek()` answers delta -1 and `remove()` faults.  The first
argument bounds the number of iterations for the recursion; the bound `tick`
passes is never used up, see `wakeLoop_fuel`. -/
def wakeLoop : Nat → Scheduler → Option Scheduler
  | 0, _ => none
  | fuel + 1, s =>
    if s.sleepingList.peek.delta ≤ 0 then
      match s.sleepingList.remove with
      | none => none
      | some (awokenPid, l) =>
        match s.entry awokenPid with
        | none => none
        | some awoken =>
          wakeLoop fuel
            { s with sleepingList := l,
                     readyList := s.readyList.enqueue awokenPid awoken.priority }
    else some s

/-- The method `tick()`. -/
def tick (run : RunBehaviour) (s : Scheduler) : Option Scheduler :=
  match s.sleepingList.decrement 1 with
  | none => none
  | some l =>
    if l.peek.delta > 0 then some { s with sleepingList := l }
    else
      match wakeLoop (l.nodes.length + 1) { s with sleepingList := l } with
      | none => none
      | some s1 => s1.reschedule run

/-- The method `suspend(pid)`: `suspendedProcess` is a copy of the table
entry, so `SUSPENDED` is written to the copy only. -/
def suspend (run : RunBehaviour) (s : Scheduler) (pid : Int) : Option (Scheduler × Int) :=
  match s.entry pid with
  | none => none
  | some suspendedProcess =>
    if suspendedProcess.state ≠ ProcessState.READY ∧
        suspendedProcess.state ≠ ProcessState.EXECUTING then some (s, -1)
    else if suspendedProcess.state = ProcessState.READY then
      some ({ s with readyList := s.readyList.remove pid }, 0)
    else (s.reschedule run).map (fun s1 => (s1, 0))

/-- The method `scheduleInterval(process, interval, repetitions, priority)`;
`clock` tells whether `SCHEDULER_ENABLE_CLOCK` is defined.  `processData` is
a copy of the table entry, so the five assignments to its fields stay local.
The clamp assigns to the parameter `interval`; the call of `insert` passes
`pid` and the clamped interval. -/
def scheduleInterval (clock : Bool) (run : RunBehaviour) (s : Scheduler)
    (_process : Runnable) (interval _repetitions _priority : Int) :
    Option (Scheduler × Int) :=
  if clock then
    match s.getNextAvailablePid with
    | none => none
    | some pid =>
      match s.entry pid with
      | none => none
      | some _processData =>
        if pid < 0 then some (s, pid)
        else if interval < 0 then some (s, -2)
        else
          match s.sleepingList.insert pid
              (if interval < MIN_INTERVAL then MIN_INTERVAL else interval) with
          | none => none
          | some l =>
            if s.started then
              (yield run { s with nextValidPid := pid + 1, sleepingList := l }).map
                (fun s1 => (s1, pid))
            else some ({ s with nextValidPid := pid + 1, sleepingList := l }, pid)
  else some (s, -1)

/-- A table is well formed when it has its `MAX_PROCESSES` entries and the
allocation hint indexes it. -/
def HintInTable (s : Scheduler) : Prop :=
  s.ptable.length = MAX_PROCESSES ∧ 0 ≤ s.nextValidPid ∧ s.nextValidPid < MAX_PROCESSES

/-- Process 0 (priority 5, `EXECUTING`) is the current process, processes 1
(priority 3) and 2 (priority 2) are `SLEEPING`, `sleepingList` holds `nodes`
and `readyList` is empty. -/
def sleepingState (nodes : List (DeltaItem Int)) : Scheduler :=
  { ptable := tableOf [oneShot 10 ProcessState.EXECUTING 5,
                       oneShot 11 ProcessState.SLEEPING 3,
                       oneShot 12 ProcessState.SLEEPING 2],
    readyList := PriorityQueue.new,
    sleepingList := { headItem := none, nodes := nodes },
    currentPid := 0,
    nextValidPid := 3,
    started := true }

/-- Slot 0 holds a process that is to run `repetitions` times at interval 5;
nothing is queued. -/
def repeatingState (repetitions : Int) : Scheduler :=
  { ptable := tableOf [{ process := some 10, state := ProcessState.READY, priority := 1,
                         repetitions := repetitions, interval := 5 }],
    readyList := PriorityQueue.new,
    sleepingList := DeltaList.new,
    currentPid := 0,
    nextValidPid := 1,
    started := true }

/-- One call of `scheduleInterval` with interval 7 on a fresh scheduler, then
`MAX_PROCESSES - 1` calls of `schedule`. -/
def hintPastTable : Option Scheduler :=
  match Scheduler.init.scheduleInterval true idleRun 1 7 1 1 with
  | none => none
  | some r => r.1.scheduleAll idleRun (List.replicate (MAX_PROCESSES - 1) (1, 1))

end Scheduler

/-! ## PersistentDID (src/lib/infrastructure/PersistentDID.cpp) -/

namespace PersistentDID

/-- The constant `PDID_MAGIC_NUMBER`. -/
def PDID_MAGIC_NUMBER : Nat := 194

/-- The size of a pointer on the 32-bit target: `sizeof(pdid)` in
`calculateChecksum`, where `pdid` is a `PersistentDId *`. -/
def POINTER_SIZE : Nat := 4

/-- The struct `PersistentDId`.  The field `tail` is the byte the compiler
adds after `checksum` to round the size up to the alignment of `padding`; no
statement assigns it. -/
structure PersistentDId where
  magicNumber : Nat
  deviceId : Nat
  padding : Nat
  checksum : Nat
  tail : Nat
deriving DecidableEq, Repr

/-- The bytes of the struct in storage order: `magicNumber`, `deviceId`, the
two bytes of `padding` (low byte first), `checksum`, `tail`. -/
def PersistentDId.bytes (pdid : PersistentDId) : List Nat :=
  [pdid.magicNumber, pdid.deviceId, pdid.padding % 256, pdid.padding / 256,
   pdid.checksum, pdid.tail]

/-- The struct whose storage holds the given bytes. -/
def PersistentDId.ofBytes (b : List Nat) : PersistentDId :=
  { magicNumber := b.getD 0 0,
    deviceId := b.getD 1 0,
    padding := b.getD 2 0 + 256 * b.getD 3 0,
    checksum := b.getD 4 0,
    tail := b.getD 5 0 }

/-- The size `sizeof(PersistentDId)`. -/
def PDID_SIZE : Nat := 6

/-- The body of the loop of `calculateChecksum` for one byte. -/
def checksumStep (crc byte : Nat) : Nat :=
  let bitmask := (byte ^^^ crc) &&& 0xff
  let crc0 := 0
  let crc1 := if bitmask &&& 0x1 ≠ 0 then crc0 ^^^ 0x5e else crc0
  let crc2 := if bitmask &&& 0x2 ≠ 0 then crc1 ^^^ 0xbc else crc1
  let crc3 := if bitmask &&& 0x4 ≠ 0 then crc2 ^^^ 0x61 else crc2
  let crc4 := if bitmask &&& 0x8 ≠ 0 then crc3 ^^^ 0xc2 else crc3
  let crc5 := if bitmask &&& 0x10 ≠ 0 then crc4 ^^^ 0x9d else crc4
  let crc6 := if bitmask &&& 0x20 ≠ 0 then crc5 ^^^ 0x23 else crc5
  let crc7 := if bitmask &&& 0x40 ≠ 0 then crc6 ^^^ 0x46 else crc6
  if bitmask &&& 0x80 ≠ 0 then crc7 ^^^ 0x8c else crc7

/-- The function `calculateChecksum(pdid)`: the loop runs over the first
`sizeof(pdid)` bytes of the struct, starting from `crc = 0xff`. -/
def calculateChecksum (pdid : PersistentDId) : Nat :=
  (pdid.bytes.take POINTER_SIZE).foldl checksumStep 0xff

/-- Modelled from the spec: the persistent byte storage behind `EEPROM`; the
class belongs to the platform library.  The storage holds one byte at every
address. -/
abbrev Storage := Int → Nat

/-- Modelled from the spec: `EEPROM.put(address, value)` stores the bytes of
the value at `address`, `address + 1`, and so on. -/
def put (e : Storage) (address : Int) (b : List Nat) : Storage :=
  fun a => if address ≤ a ∧ a < address + b.length then b.getD (a - address).toNat 0 else e a

/-- Modelled from the spec: `EEPROM.get(address, value)` reads `size` bytes
from `address` on. -/
def get (e : Storage) (address : Int) (size : Nat) : List Nat :=
  (List.range size).map (fun (i : Nat) => e (address + (i : Int)))

/-- The function `writeDeviceId(dId, startAddr)`: the storage after the call
and the value returned.  `tail` is what the unassigned byte of the local
struct holds.  The field `checksum` is unassigned while `calculateChecksum`
runs; the loop stops before it. -/
def writeDeviceId (tail : Nat) (e : Storage) (dId : Nat) (startAddr : Int) : Storage × Int :=
  let pdid0 : PersistentDId :=
    { magicNumber := PDID_MAGIC_NUMBER, deviceId := dId, padding := 0, checksum := 0,
      tail := tail }
  let pdid : PersistentDId := { pdid0 with checksum := calculateChecksum pdid0 }
  (put e startAddr pdid.bytes, startAddr + PDID_SIZE)

/-- The function `readDeviceId(startAddr)`. -/
def readDeviceId (e : Storage) (startAddr : Int) : Nat :=
  let pdid := PersistentDId.ofBytes (get e startAddr PDID_SIZE)
  if pdid.magicNumber ≠ PDID_MAGIC_NUMBER then 0
  else if pdid.padding ≠ 0 then 0
  else if pdid.checksum ≠ calculateChecksum pdid then 0
  else pdid.deviceId

/-- The storage with the byte at `address` replaced by `v`. -/
def corrupt (e : Storage) (address : Int) (v : Nat) : Storage :=
  fun a => if a = address then v else e a

/-- The checksum `writeDeviceId` stores for the device id `dId`. -/
def checksumOf (dId : Nat) : Nat :=
  [PDID_MAGIC_NUMBER, dId, 0, 0].foldl checksumStep 0xff

/-- The byte `b` with `checksumStep 0 b = c`: the loop body is linear over
the bits of its mask, and this is the inverse table applied per set bit. -/
def unstep (c : Nat) : Nat :=
  (if c &&& 0x1 ≠ 0 then 0x19 else 0) ^^^ (if c &&& 0x2 ≠ 0 then 0x32 else 0) ^^^
  (if c &&& 0x4 ≠ 0 then 0x64 else 0) ^^^ (if c &&& 0x8 ≠ 0 then 0xc8 else 0) ^^^
  (if c &&& 0x10 ≠ 0 then 0x89 else 0) ^^^ (if c &&& 0x20 ≠ 0 then 0x0b else 0) ^^^
  (if c &&& 0x40 ≠ 0 then 0x16 else 0) ^^^ (if c &&& 0x80 ≠ 0 then 0x2c else 0)

/-- The device id whose record carries the checksum `c`. -/
def deviceIdOfChecksum (c : Nat) : Nat :=
  unstep (unstep (unstep c)) ^^^ checksumStep 0xff PDID_MAGIC_NUMBER

/-- The bytes `readDeviceId` examines, given the six bytes read. -/
def readRecord (b : List Nat) : Nat :=
  let pdid := PersistentDId.ofBytes b
  if pdid.magicNumber ≠ PDID_MAGIC_NUMBER then 0
  else if pdid.padding ≠ 0 then 0
  else if pdid.checksum ≠ calculateChecksum pdid then 0
  else pdid.deviceId

/-- A storage that holds 0xff everywhere, as erased flash does. -/
def erased : Storage := fun _ => 0xff

end PersistentDID

/-! ## DeltaList and Scheduler: the wake-up procedure, sleep and start -/

namespace DeltaList

variable {T : Type}

/-- The loop of a caller that pops what is due: `while(peek().delta <= 0)
remove()`, with the values removed, first one first.  On an empty list
`peek()` answers delta -1, so the loop goes on to `remove()`, which faults.
The first argument bounds the number of iterations for the recursion; one
more than the number of nodes is never used up, see `removeDue_fuel`. -/
def removeDue [Inhabited T] : Nat → DeltaList T → Option (List T × DeltaList T)
  | 0, _ => none
  | fuel + 1, l =>
    if l.peek.delta ≤ 0 then
      match l.remove with
      | none => none
      | some (v, l1) => (removeDue fuel l1).map (fun r => (v :: r.1, r.2))
    else some ([], l)

/-- The call `decrement(k)` followed by the loop that pops what is due. -/
def advance [Inhabited T] (l : DeltaList T) (k : Int) : Option (List T × DeltaList T) :=
  (l.decrement k).bind (fun l1 => removeDue (l1.nodes.length + 1) l1)

end DeltaList

namespace Scheduler

/-- The state in which `switchContext(nextPid)` invokes `run()`. -/
def enterContext (s : Scheduler) (nextPid : Int) : Scheduler :=
  { s with currentPid := nextPid }

/-- The method `sleep(delay)` up to the call of `switchContext` inside
`reschedule`; `clock` tells whether `SCHEDULER_ENABLE_CLOCK` is defined.
Without the clock the method returns -1 and the result carries no PID. -/
def sleepSelect (clock : Bool) (s : Scheduler) (delay : Int) :
    Option (Scheduler × Option Int) :=
  if clock then
    match s.sleepingList.insert s.currentPid delay with
    | none => none
    | some l =>
      match s.entry s.currentPid with
      | none => none
      | some cur =>
        match ({ s with sleepingList := l } : Scheduler).setEntry s.currentPid
            { cur with state := ProcessState.SLEEPING } with
        | none => none
        | some s1 => s1.rescheduleSelect
  else some (s, none)

/-- The method `sleep(delay)`: the state and the value returned.  With the
clock the body ends without a `return`, so no value is known; without it the
method returns -1. -/
def sleep (clock : Bool) (run : RunBehaviour) (s : Scheduler) (delay : Int) :
    Option (Scheduler × Option Int) :=
  if clock then
    match s.sleepSelect clock delay with
    | none => none
    | some (s1, none) => some (s1, none)
    | some (s1, some nextPid) => (s1.switchContext run nextPid).map (fun s2 => (s2, none))
  else some (s, some (-1))

/-- One iteration of the loop of `start()` up to the call of `run()`: the
state at that point and the PID dequeued, or no PID when `readyList` is
empty.  The current PID is not assigned. -/
def startSelect (s : Scheduler) : Option (Scheduler × Option Int) :=
  if s.readyList.isEmpty then some (s, none)
  else
    match s.readyList.dequeue with
    | none => none
    | some (nextPid, q) => some ({ s with readyList := q }, some nextPid)

/-- One iteration of the loop of `start()`. -/
def startIteration (run : RunBehaviour) (s : Scheduler) : Option Scheduler :=
  match s.startSelect with
  | none => none
  | some (s1, none) => some s1
  | some (s1, some nextPid) =>
    match s1.entry nextPid with
    | none => none
    | some e =>
      match e.process with
      | none => none
      | some r =>
        match run r s1 with
        | none => none
        | some s2 => s2.postExecute nextPid

/-- The first statement of `start()`. -/
def startBegin (s : Scheduler) : Scheduler := { s with started := true }

/-- The method `tick()` called `n` times; a fault ends the sequence. -/
def tickTimes (run : RunBehaviour) : Nat → Scheduler → Option Scheduler
  | 0, s => some s
  | n + 1, s => (s.tick run).bind (fun s1 => tickTimes run n s1)

/-- Scenario S2 before `start()`: `schedule(P1, 5)`, `schedule(P2, 5)`,
`schedule(P3, 10)` on a fresh scheduler; the runnables are 1, 2 and 3 and get
the PIDs 0, 1 and 2. -/
def roundRobinSetup : Option Scheduler :=
  Scheduler.init.scheduleAll idleRun [(1, 5), (2, 5), (3, 10)]

end Scheduler

/-! ## DCPResponse: the status code of the finished record -/

namespace DCP

/-- The record is in one of the two states the handlers leave. -/
def Failed (st : ParseState) : Prop :=
  st.response.statusCode = RESPONSE_TIMEOUT ∨ st.response.statusCode = INVALID_RESPONSE

/-- The status code is a number of at most two digits with tens digit at
most 5. -/
def StatusInRange (st : ParseState) : Prop :=
  0 ≤ st.response.statusCode ∧ st.response.statusCode ≤ 59

end DCP

/-! ## DCPRequest (src/lib/infrastructure/DCP/DCPRequest.h, DCPRequest.cpp) -/

namespace DCP

/-- The enumeration `DCPMethod`; `GET` is the value 0 and `POST` the value 1. -/
inductive DCPMethod where
  | GET
  | POST
deriving DecidableEq, Repr

/-- The entry of the array `DCPMethodName` at the index of a method. -/
def DCPMethodName (method : DCPMethod) : String :=
  match method with
  | DCPMethod.GET => "GET"
  | DCPMethod.POST => "POST"

/-- The members of `DCPRequest::Implementation`. -/
structure DCPRequest where
  method : DCPMethod
  resource : String
  sessionId : String
  data : String
  sent : Bool
deriving DecidableEq, Repr

/-- The constructor `DCPRequest(method, resource, sessionId)`. -/
def DCPRequest.new (method : DCPMethod) (resource sessionId : String) : DCPRequest :=
  { method := method, resource := resource, sessionId := sessionId, data := "", sent := false }

/-- The method `setMessage(message)`. -/
def DCPRequest.setMessage (request : DCPRequest) (message : String) : DCPRequest :=
  { request with data := message }

/-- The method `wasSent()`. -/
def DCPRequest.wasSent (request : DCPRequest) : Bool := request.sent

/-- Modelled from the spec: the writing side of the `ByteStream` capability
that `WiFiClient` provides; the class itself belongs to the platform library.
The stream is the list of the bytes written so far, first byte first. -/
abbrev WrittenBytes := List Nat

/-- The call `client.write(buffer, length)` on the characters of a string. -/
def writeString (client : WrittenBytes) (text : String) : WrittenBytes :=
  client ++ text.toList.map (fun c => c.toNat % 256)

/-- The call `client.write(value)` with one integer argument: the overload
that takes a byte, which sends the low eight bits of the value. -/
def writeValue (client : WrittenBytes) (value : Nat) : WrittenBytes :=
  client ++ [value % 256]

/-- The method `send(client)` up to `client.flush()`; `millis` is the value
the call `millis()` returns.  The request after the call and what the stream
holds.  The statements are: the method name, a space, the resource, a line
feed, the session id, `": "`, `client.write(millis())`,
`client.write(data.length())`, the data, `sent = true`. -/
def DCPRequest.send (request : DCPRequest) (millis : Nat) (client : WrittenBytes) :
    DCPRequest × WrittenBytes :=
  let c1 := writeString client (DCPMethodName request.method)
  let c2 := writeValue c1 ' '.toNat
  let c3 := writeString c2 request.resource
  let c4 := writeValue c3 '\n'.toNat
  let c5 := writeString c4 request.sessionId
  let c6 := writeString c5 ": "
  let c7 := writeValue c6 millis
  let c8 := writeValue c7 request.data.length
  let c9 := writeString c8 request.data
  ({ request with sent := true }, c9)

/-- The ASCII decimal representation of a number, as the spec uses it for
`SESSION_TIMESTAMP` and `CONTENT_LENGTH`. -/
def specDecimal (n : Nat) : List Nat := (Nat.repr n).toList.map (fun c => c.toNat)

/-- The request frame in the words of the spec: method name, space, resource,
line feed, session id, colon, space, timestamp in decimal, line feed, body
length in decimal, line feed, body. -/
def specFrame (method : DCPMethod) (resource sessionId body : String) (millis : Nat) :
    List Nat :=
  (DCPMethodName method).toList.map (fun c => c.toNat) ++ [' '.toNat] ++
    resource.toList.map (fun c => c.toNat) ++ ['\n'.toNat] ++
    sessionId.toList.map (fun c => c.toNat) ++ [':'.toNat, ' '.toNat] ++
    specDecimal millis ++ ['\n'.toNat] ++
    specDecimal body.length ++ ['\n'.toNat] ++
    body.toList.map (fun c => c.toNat)

end DCP

/-! ## IRS (src/src/IRS.h, src/src/ESP8266_IRS.cpp) -/

namespace IRS

/-- The constant `PIN0_MASK`. -/
def PIN0_MASK : Nat := 0x1

/-- The constant `PIN2_MASK`. -/
def PIN2_MASK : Nat := 0x2

/-- The constant `PIN4_MASK`. -/
def PIN4_MASK : Nat := 0x4

/-- The constant `PIN5_MASK`. -/
def PIN5_MASK : Nat := 0x8

/-- The constant `PIN12_MASK`. -/
def PIN12_MASK : Nat := 0x10

/-- The constant `PIN13_MASK`. -/
def PIN13_MASK : Nat := 0x20

/-- The constant `PIN14_MASK`. -/
def PIN14_MASK : Nat := 0x40

/-- The constant `PIN15_MASK`. -/
def PIN15_MASK : Nat := 0x80

/-- The pins that have a handler. -/
def SUPPORTED_PINS : List Int := [0, 2, 4, 5, 12, 13, 14, 15]

/-- The operator `!` on an integer: 1 for zero, 0 for every other value. -/
def logicalNot (v : Nat) : Nat := if v = 0 then 1 else 0

/-- The handler registered for a pin by `registerInterruptHandler`:
`interruptMask |= PINn_MASK`, and `noop` for any other pin.  The variable
`interruptMask` is eight bits wide. -/
def interruptHandler (interruptMask : Nat) (pin : Int) : Nat :=
  if pin = 0 then (interruptMask ||| PIN0_MASK) % 256
  else if pin = 2 then (interruptMask ||| PIN2_MASK) % 256
  else if pin = 4 then (interruptMask ||| PIN4_MASK) % 256
  else if pin = 5 then (interruptMask ||| PIN5_MASK) % 256
  else if pin = 12 then (interruptMask ||| PIN12_MASK) % 256
  else if pin = 13 then (interruptMask ||| PIN13_MASK) % 256
  else if pin = 14 then (interruptMask ||| PIN14_MASK) % 256
  else if pin = 15 then (interruptMask ||| PIN15_MASK) % 256
  else interruptMask

/-- The function `triggeredInterrupt(pin)`: `bitMask` starts as 0 and the
result is `interruptMask & bitMask` as a `bool`. -/
def triggeredInterrupt (interruptMask : Nat) (pin : Int) : Bool :=
  let bitMask : Nat :=
    if pin = 0 then PIN0_MASK
    else if pin = 2 then PIN2_MASK
    else if pin = 4 then PIN4_MASK
    else if pin = 5 then PIN5_MASK
    else if pin = 12 then PIN12_MASK
    else if pin = 13 then PIN13_MASK
    else if pin = 14 then PIN14_MASK
    else if pin = 15 then PIN15_MASK
    else 0
  decide (interruptMask &&& bitMask ≠ 0)

/-- The function `resetInterrupt(pin)`: `bitMask` starts as `0xFF`, each case
assigns `!PINn_MASK`, with the logical operator `!`, and the new value of
`interruptMask` is `interruptMask & bitMask`. -/
def resetInterrupt (interruptMask : Nat) (pin : Int) : Nat :=
  let bitMask : Nat :=
    if pin = 0 then logicalNot PIN0_MASK
    else if pin = 2 then logicalNot PIN2_MASK
    else if pin = 4 then logicalNot PIN4_MASK
    else if pin = 5 then logicalNot PIN5_MASK
    else if pin = 12 then logicalNot PIN12_MASK
    else if pin = 13 then logicalNot PIN13_MASK
    else if pin = 14 then logicalNot PIN14_MASK
    else if pin = 15 then logicalNot PIN15_MASK
    else 0xFF
  interruptMask &&& bitMask

end IRS

/-! ## Scheduler: the states the public methods reach -/

namespace Scheduler

/-- The PIDs held by `sleepingList`, first node first. -/
def sleepingPids (s : Scheduler) : List Int :=
  s.sleepingList.nodes.map (fun n => n.value)

/-- The table state of a PID, when the PID indexes the table. -/
def stateOf (s : Scheduler) (pid : Int) : Option ProcessState :=
  (s.entry pid).map (fun e => e.state)

/-- No PID is queued twice, every PID in `readyList` is `READY` in the table
and every PID in `sleepingList` is `SLEEPING` in the table. -/
def QueuesConsistent (s : Scheduler) : Prop :=
  (s.readyPids ++ s.sleepingPids).Nodup ∧
  (∀ pid ∈ s.readyPids, s.stateOf pid = some ProcessState.READY) ∧
  (∀ pid ∈ s.sleepingPids, s.stateOf pid = some ProcessState.SLEEPING)

/-- The states the constructor and the public methods produce, each call run
to its end; `clock` tells whether `SCHEDULER_ENABLE_CLOCK` is defined.  A
dispatch is one iteration of the loop of `start()`. -/
inductive ReachableByCalls (clock : Bool) (run : RunBehaviour) : Scheduler → Prop where
  | init : ReachableByCalls clock run Scheduler.init
  | schedule (s s1 : Scheduler) (process : Runnable) (priority pid : Int) :
      ReachableByCalls clock run s → s.schedule run process priority = some (s1, pid) →
      ReachableByCalls clock run s1
  | scheduleInterval (s s1 : Scheduler) (process : Runnable)
      (interval repetitions priority pid : Int) :
      ReachableByCalls clock run s →
      s.scheduleInterval clock run process interval repetitions priority = some (s1, pid) →
      ReachableByCalls clock run s1
  | sleep (s s1 : Scheduler) (delay : Int) (r : Option Int) :
      ReachableByCalls clock run s → s.sleep clock run delay = some (s1, r) →
      ReachableByCalls clock run s1
  | suspend (s s1 : Scheduler) (pid r : Int) :
      ReachableByCalls clock run s → s.suspend run pid = some (s1, r) →
      ReachableByCalls clock run s1
  | ready (s s1 : Scheduler) (pid r : Int) :
      ReachableByCalls clock run s → s.ready run pid = some (s1, r) →
      ReachableByCalls clock run s1
  | kill (s s1 : Scheduler) (r : Int) :
      ReachableByCalls clock run s → s.kill = some (s1, r) → ReachableByCalls clock run s1
  | tick (s s1 : Scheduler) :
      ReachableByCalls clock run s → s.tick run = some s1 → ReachableByCalls clock run s1
  | yield (s s1 : Scheduler) :
      ReachableByCalls clock run s → s.yield run = some s1 → ReachableByCalls clock run s1
  | start (s : Scheduler) :
      ReachableByCalls clock run s → ReachableByCalls clock run s.startBegin
  | dispatch (s s1 : Scheduler) :
      ReachableByCalls clock run s → s.startIteration run = some s1 →
      ReachableByCalls clock run s1

end Scheduler

/-! ## DCPResponse: the accumulation of a digit field in the words of the spec -/

namespace DCP

end DCP

/-! ## Scheduler: reads of the process table that leave the table -/

namespace Scheduler

/-- A read of `ptable[pid]` that goes on when `pid` is outside
`[0, MAX_PROCESSES)`: the code then reads the memory next to the table, and
`outside` tells what it finds there.  Inside the table the read is `entry`. -/
def entryReading (outside : Int → ProcessData) (s : Scheduler) (pid : Int) : ProcessData :=
  match s.entry pid with
  | some e => e
  | none => outside pid

/-- The method `getNextAvailablePid()` with such reads. -/
def getNextAvailablePidReading (outside : Int → ProcessData) (s : Scheduler) : Int :=
  if (s.entryReading outside s.nextValidPid).state ≠ ProcessState.DEAD then
    if (s.nextValidPid + 1) % (MAX_PROCESSES : Int) = s.nextValidPid then -1
    else (s.nextValidPid + 1) % (MAX_PROCESSES : Int)
  else s.nextValidPid

/-- The method `scheduleInterval(process, interval, repetitions, priority)`
with such reads; `clock` tells whether `SCHEDULER_ENABLE_CLOCK` is defined.
The statements are those of `scheduleInterval`: the probe, the copy
`processData = ptable[pid]`, the test of `pid`, the test of the interval, the
clamp, the assignments to the copy, the hint, the insertion and the call of
`yield()`. -/
def scheduleIntervalReading (outside : Int → ProcessData) (clock : Bool)
    (run : RunBehaviour) (s : Scheduler) (_process : Runnable)
    (interval _repetitions _priority : Int) : Option (Scheduler × Int) :=
  if clock then
    let pid := s.getNextAvailablePidReading outside
    let _processData := s.entryReading outside pid
    if pid < 0 then some (s, pid)
    else if interval < 0 then some (s, -2)
    else
      match s.sleepingList.insert pid
          (if interval < MIN_INTERVAL then MIN_INTERVAL else interval) with
      | none => none
      | some l =>
        if s.started then
          (yield run { s with nextValidPid := pid + 1, sleepingList := l }).map
            (fun s1 => (s1, pid))
        else some ({ s with nextValidPid := pid + 1, sleepingList := l }, pid)
  else some (s, -1)

end Scheduler

/-! ## DCPResponse: the undeclared name `subDeviceId` as a parameter -/

namespace DCP

/-- What the statement `subDeviceId[charIndex++] = client.read()` of
`parseSessionId` and `parseBody` does with the byte.  No `subDeviceId` is
declared in those methods or in `Implementation`, so what the name denotes is
a parameter: given the array `subDeviceId` of the constructor, the index and
the byte, the array afterwards, or `none` for a fault.  With `writeBuffer`
the name is the array of the constructor, as in `parseSessionIdLoop` and
`parseBodyLoop`. -/
abbrev StrayStore := List Char → Nat → Char → Option (List Char)

/-- The loop of `parseSessionId`, the store as a parameter. -/
def parseSessionIdLoopWith (store : StrayStore) :
    Nat → Nat → ParseState → Option (Bool × ParseState)
  | 0, _, st => some (true, st)
  | remaining + 1, charIndex, st =>
    match waitForByte st with
    | (false, st1) => some (false, st1)
    | (true, st1) =>
      if peek st1 = code ':' then some (true, st1)
      else
        match store (read st1).2.subDeviceId charIndex (toChar (read st1).1) with
        | none => none
        | some b =>
          parseSessionIdLoopWith store remaining (charIndex + 1)
            { (read st1).2 with subDeviceId := b }

/-- The method `parseSessionId(sessionId)`, the store as a parameter. -/
def parseSessionIdWith (store : StrayStore) (st : ParseState) : Option (Bool × ParseState) :=
  match parseSessionIdLoopWith store SESSIONID_LENGTH 0 st with
  | none => none
  | some (false, st1) => some (false, st1)
  | some (true, st1) =>
    if (read st1).1 ≠ code ':' then some (false, handleInvalidResponse (read st1).2)
    else some (true, (read st1).2)

/-- The loop of `parseBody`, the store as a parameter. -/
def parseBodyLoopWith (store : StrayStore) :
    Nat → Nat → ParseState → Option (Bool × ParseState)
  | 0, _, st => some (true, st)
  | remaining + 1, charIndex, st =>
    match waitForByte st with
    | (false, st1) => some (false, st1)
    | (true, st1) =>
      match store (read st1).2.subDeviceId charIndex (toChar (read st1).1) with
      | none => none
      | some b =>
        parseBodyLoopWith store remaining (charIndex + 1)
          { (read st1).2 with subDeviceId := b }

/-- The method `parseBody(body)`, the store as a parameter. -/
def parseBodyWith (store : StrayStore) (st : ParseState) : Option (Bool × ParseState) :=
  parseBodyLoopWith store st.response.contentLength 0 st

/-- The constructor from the status code on, the store as a parameter. -/
def parseFromStatusWith (store : StrayStore) (ind : Indeterminate) (st : ParseState) :
    Option ParseState :=
  let st1 : ParseState :=
    { (parseStatus st).2 with response :=
        { (parseStatus st).2.response with statusCode := (parseStatus st).1 } }
  if st1.response.statusCode ≠ SUCCESS_NOCONTENT ∨ st1.response.statusCode ≠ SERVER_ERROR ∨
      st1.response.statusCode ≠ RESPONSE_TIMEOUT ∨
      st1.response.statusCode ≠ INVALID_RESPONSE then
    let st2 : ParseState :=
      { (parseContentLength st1).2 with response :=
          { (parseContentLength st1).2.response with
              contentLength := (parseContentLength st1).1 } }
    if st2.response.contentLength ≠ 0 then
      match parseBodyWith store st2 with
      | none => none
      | some (false, st3) => some st3
      | some (true, st3) =>
        storeIdentifiers { st3 with response := { st3.response with data := ind.heapText } }
    else storeIdentifiers st2
  else storeIdentifiers st1

/-- The constructor `DCPResponse(WiFiClient &client)`, the store as a
parameter: the state when it returns, or `none` when it faults. -/
def parseResponseWith (store : StrayStore) (ind : Indeterminate) (client : WiFiClient) :
    Option ParseState :=
  match waitForByte (initialState ind client) with
  | (false, st1) => some st1
  | (true, st1) =>
    match parseDeviceId st1 with
    | none => none
    | some (false, st2) => some st2
    | some (true, st2) =>
      match parseSubDeviceId st2 with
      | none => none
      | some (false, st3) => some st3
      | some (true, st3) =>
        match parseSessionIdWith store st3 with
        | none => none
        | some (false, st4) => some st4
        | some (true, st4) =>
          let st5 : ParseState :=
            { (parseSessionTimestamp st4).2 with response :=
                { (parseSessionTimestamp st4).2.response with
                    sessionTimestamp := (parseSessionTimestamp st4).1 } }
          if st5.response.statusCode = INVALID_RESPONSE then some st5
          else parseFromStatusWith store ind st5

end DCP

/-! ## Scheduler: the lifetime of the list objects (Scheduler.cpp, PriorityQueue.cpp, DeltaList.cpp) -/

namespace Lifetime

/-- The `Implementation` objects that the constructors of `PriorityQueue<int>`
and `DeltaList<int>` have created with `new Implementation()`, by address:
`some` while the object is alive, `none` once `delete implementation` has run
on it. -/
structure Heap where
  queues : List (Option (PriorityQueue Int))
  lists : List (Option (DeltaList Int))
deriving DecidableEq, Repr

/-- The heap before any object has been created. -/
def Heap.empty : Heap := { queues := [], lists := [] }

/-- The constructor `PriorityQueue()`: `implementation = new Implementation()`.
The value of the member `implementation` and the heap afterwards. -/
def newPriorityQueue (h : Heap) : Nat × Heap :=
  (h.queues.length, { h with queues := h.queues ++ [some PriorityQueue.new] })

/-- The destructor `~PriorityQueue()` of an object whose member
`implementation` is `address`: `delete implementation`. -/
def deletePriorityQueue (h : Heap) (address : Nat) : Heap :=
  { h with queues := h.queues.set address none }

/-- The constructor `DeltaList()`: `implementation = new Implementation()`. -/
def newDeltaList (h : Heap) : Nat × Heap :=
  (h.lists.length, { h with lists := h.lists ++ [some DeltaList.new] })

/-- The destructor `~DeltaList()` of an object whose member `implementation`
is `address`: `delete implementation`. -/
def deleteDeltaList (h : Heap) (address : Nat) : Heap :=
  { h with lists := h.lists.set address none }

/-- The class `SchedulerImplementation` with its two list members as
objects: each is the value of its member `implementation`, an address in the
heap.  Neither list class declares a copy assignment, so an assignment of one
list object to another copies that address. -/
structure SchedulerImplementation where
  ptable : List ProcessData
  readyList : Nat
  sleepingList : Nat
  currentPid : Int
  nextValidPid : Int
  started : Bool
  heap : Heap
deriving DecidableEq, Repr

/-- The constructor `SchedulerImplementation()`.  The members `readyList`
and `sleepingList` are default-constructed before the body runs.  The
statement `readyList = PriorityQueue<int>()` constructs a temporary, copies
its member `implementation` into `readyList`, and at the end of the statement
runs the destructor of the temporary, which deletes the `Implementation` that
`readyList` now points to; the statement `sleepingList = DeltaList<int>()`
does the same. -/
def construct : SchedulerImplementation :=
  let member1 := newPriorityQueue Heap.empty
  let member2 := newDeltaList member1.2
  let temporary1 := newPriorityQueue member2.2
  let heap1 := deletePriorityQueue temporary1.2 temporary1.1
  let temporary2 := newDeltaList heap1
  let heap2 := deleteDeltaList temporary2.2 temporary2.1
  { ptable := List.replicate MAX_PROCESSES ProcessData.zero,
    readyList := temporary1.1,
    sleepingList := temporary2.1,
    currentPid := -1,
    nextValidPid := 0,
    started := false,
    heap := heap2 }

/-- A read of `ptable[pid]` inside the table. -/
def entry (c : SchedulerImplementation) (pid : Int) : Option ProcessData :=
  if 0 ≤ pid ∧ pid < MAX_PROCESSES then c.ptable[pid.toNat]? else none

/-- The method `getNextAvailablePid()`. -/
def getNextAvailablePid (c : SchedulerImplementation) : Option Int :=
  match entry c c.nextValidPid with
  | none => none
  | some e =>
    if e.state ≠ ProcessState.DEAD then
      if (c.nextValidPid + 1) % (MAX_PROCESSES : Int) = c.nextValidPid then some (-1)
      else some ((c.nextValidPid + 1) % (MAX_PROCESSES : Int))
    else some c.nextValidPid

/-- The call `readyList.enqueue(item, priority)` through the member
`readyList`: the method reads `implementation->HEAD`, a fault when the
`Implementation` has been deleted. -/
def enqueueReady (c : SchedulerImplementation) (item priority : Int) :
    Option SchedulerImplementation :=
  match c.heap.queues[c.readyList]? with
  | some (some q) =>
    some { c with heap :=
      { c.heap with queues := c.heap.queues.set c.readyList (some (q.enqueue item priority)) } }
  | _ => none

/-- The method `schedule(process, priority)`; `yield` is what the call of
`yield()` does when the scheduler has been started. -/
def schedule (yield : SchedulerImplementation → Option SchedulerImplementation)
    (c : SchedulerImplementation) (process : Runnable) (priority : Int) :
    Option (SchedulerImplementation × Int) :=
  match getNextAvailablePid c with
  | none => none
  | some pid =>
    if pid < 0 then some (c, pid)
    else
      match entry c pid with
      | none => none
      | some e =>
        let c1 : SchedulerImplementation :=
          { c with
              ptable := c.ptable.set pid.toNat
                { e with process := some process, priority := priority,
                         state := ProcessState.READY },
              nextValidPid := pid + 1 }
        match enqueueReady c1 pid priority with
        | none => none
        | some c2 =>
          if c2.started then (yield c2).map (fun c3 => (c3, pid))
          else some (c2, pid)

/-- The number of process-table slots whose state is not `DEAD`. -/
def liveCount (c : SchedulerImplementation) : Nat :=
  (c.ptable.filter (fun e => decide (e.state ≠ ProcessState.DEAD))).length

end Lifetime

/-! ## Theorems: PriorityQueue -/

set_option maxRecDepth 100000

namespace PriorityQueue

variable {T : Type}

/-- On a non-empty queue the walk of `enqueue` stops at the sentinel for
every priority above the sentinel's: the new node becomes the first node. -/
theorem enqueue_front_of_pos (q : PriorityQueue T) (item : T) (priority : Int)
    (hp : HEAD_PRIORITY < priority) (hq : q.nodes ≠ []) :
    (q.enqueue item priority).nodes = { item := item, priority := priority } :: q.nodes := by
  unfold enqueue
  cases hn : q.nodes with
  | nil => exact absurd hn hq
  | cons n rest =>
    have : ¬ (HEAD_PRIORITY ≥ priority) := not_le.mpr hp
    simp [enqueueAfter, this]

/-- Claim C1, which the code does not meet: items enqueued with equal priority must
leave in FIFO order and the dequeue sequence must be non-increasing in
priority.  `enqueue` compares the priority of `current` instead of the
priority of `current->next`, so on `enqueue(10, 5); enqueue(20, 5)` the items
leave as 20, 10, and on `enqueue(10, 2); enqueue(20, 1)` item 20 of priority 1
leaves before item 10 of priority 2. -/
theorem enqueue_dequeue_order_broken :
    drain 2 ((new : PriorityQueue Nat).enqueueAll [(10, 5), (20, 5)]) = [20, 10] ∧
    drain 2 ((new : PriorityQueue Nat).enqueueAll [(10, 2), (20, 1)]) = [20, 10] ∧
    ((new : PriorityQueue Nat).enqueueAll [(10, 2), (20, 1)]).nodes =
      [{ item := 20, priority := 1 }, { item := 10, priority := 2 }] := by
  decide

end PriorityQueue

/-! ## Theorems: DeltaList -/

namespace DeltaList

/-- The second `insert` on a list built by the constructor reads
`HEAD->item->delta` through the null `HEAD->item`. -/
theorem insert_second_faults {T : Type} (v w : T) (t u : Int) :
    (new : DeltaList T).insertAll [(v, t), (w, u)] = none := by
  simp [insertAll, insert, insertAfter, new]

/-- Claim C2, which the code does not meet: after any inserts the fire time of each
value, the sum of the deltas up to its node, must equal the time it was
inserted with.  The first insert works; the second dereferences the null item
of the sentinel, whatever the values and times.  Were the sentinel to hold an
item of delta 0, `insert(1, 5); insert(2, 3)` would still put value 2 behind
value 1 at fire time 8 instead of 3, because the walk tests the delta of
`current` and not of `current->next`. -/
theorem insert_fire_time_broken :
    (new : DeltaList Nat).insertAll [(1, 0)]
      = some { headItem := none, nodes := [{ value := 1, delta := 0 }] } ∧
    (new : DeltaList Nat).insertAll [(1, 0), (2, 1)] = none ∧
    (∀ (v w : Nat) (t u : Int), (new : DeltaList Nat).insertAll [(v, t), (w, u)] = none) ∧
    (({ headItem := some { value := 0, delta := 0 }, nodes := [] } : DeltaList Nat).insertAll
        [(1, 5), (2, 3)]).map (fun l => (fireTime 1 l.nodes, fireTime 2 l.nodes))
      = some (some 5, some 8) := by
  refine ⟨by decide, by decide, fun v w t u => insert_second_faults v w t u, by decide⟩

end DeltaList

/-! ## Theorems: Scheduler -/

namespace Scheduler

theorem liveCount_of_prefixTable (s : Scheduler) (l : List ProcessData)
    (h : s.PrefixTable l) : s.liveCount = l.length := by
  obtain ⟨_, hl, ht, _⟩ := h
  unfold liveCount
  rw [ht, List.filter_append]
  have h1 : l.filter (fun e => decide (e.state ≠ ProcessState.DEAD)) = l := by
    rw [List.filter_eq_self]
    intro e he
    simp [hl e he]
  have h2 : (List.replicate (MAX_PROCESSES - l.length) ProcessData.zero).filter
      (fun e => decide (e.state ≠ ProcessState.DEAD)) = [] := by
    rw [List.filter_eq_nil_iff]
    intro e he
    rw [List.mem_replicate] at he
    simp [he.2, ProcessData.zero]
  rw [h1, h2]; simp

theorem entry_of_prefixTable (s : Scheduler) (l : List ProcessData)
    (h : s.PrefixTable l) (hlt : l.length < MAX_PROCESSES) :
    s.entry (l.length : Int) = some ProcessData.zero := by
  obtain ⟨_, _, ht, _⟩ := h
  unfold entry
  have : (0 : Int) ≤ l.length ∧ ((l.length : Nat) : Int) < (MAX_PROCESSES : Nat) := by
    constructor
    · exact Int.natCast_nonneg _
    · exact_mod_cast hlt
  rw [if_pos this, ht]
  simp only [Int.toNat_ofNat]
  rw [List.getElem?_append_right (le_refl _)]
  have hpos : 0 < MAX_PROCESSES - l.length := by omega
  simp [List.getElem?_replicate, hpos]

/-- On the table left by `l.length < MAX_PROCESSES` allocations, `schedule`
takes the slot at the hint. -/
theorem schedule_of_prefixTable (run : RunBehaviour) (s : Scheduler) (l : List ProcessData)
    (h : s.PrefixTable l) (hlt : l.length < MAX_PROCESSES) (process : Runnable)
    (priority : Int) :
    s.schedule run process priority =
      some ({ s with
                ptable := (l ++ [{ ProcessData.zero with
                                    process := some process, priority := priority,
                                    state := ProcessState.READY }])
                          ++ List.replicate (MAX_PROCESSES - (l.length + 1)) ProcessData.zero,
                nextValidPid := (l.length : Int) + 1,
                readyList := s.readyList.enqueue (l.length : Int) priority },
            (l.length : Int)) := by
  have he := entry_of_prefixTable s l h hlt
  obtain ⟨_, _, ht, hn, hs, _⟩ := h
  have hget : s.getNextAvailablePid = some (l.length : Int) := by
    unfold getNextAvailablePid
    rw [hn, he]
    simp [ProcessData.zero]
  have hset : ∀ d, s.setEntry (l.length : Int) d =
      some { s with ptable := (l ++ [d]) ++
        List.replicate (MAX_PROCESSES - (l.length + 1)) ProcessData.zero } := by
    intro d
    unfold setEntry
    have hc : (0 : Int) ≤ l.length ∧ ((l.length : Nat) : Int) < (MAX_PROCESSES : Nat) ∧
        ((l.length : Nat) : Int).toNat < s.ptable.length := by
      refine ⟨Int.natCast_nonneg _, by exact_mod_cast hlt, ?_⟩
      rw [ht]; simp; omega
    rw [if_pos hc]
    have hA : s.ptable.set ((l.length : Nat) : Int).toNat d = (l ++ [d]) ++
        List.replicate (MAX_PROCESSES - (l.length + 1)) ProcessData.zero := by
      rw [ht]
      simp only [Int.toNat_ofNat]
      rw [List.set_append_right _ _ (le_refl _)]
      have : MAX_PROCESSES - l.length = (MAX_PROCESSES - (l.length + 1)) + 1 := by omega
      rw [this, List.replicate_succ]
      simp
    rw [hA]
  unfold schedule
  rw [hget]
  have hnn : ¬ ((l.length : Int) < 0) := by omega
  simp only [hnn, if_false, he, hset, hs]
  simp

/-- The state `schedule` leaves on a prefix table is again a prefix table,
one entry longer. -/
theorem prefixTable_after_schedule (run : RunBehaviour) (s s1 : Scheduler)
    (l : List ProcessData) (h : s.PrefixTable l) (process : Runnable) (priority pid : Int)
    (hs : s.schedule run process priority = some (s1, pid)) :
    l.length < MAX_PROCESSES ∧
    s1.PrefixTable (l ++ [{ ProcessData.zero with
                              process := some process, priority := priority,
                              state := ProcessState.READY }]) := by
  by_cases hlt : l.length < MAX_PROCESSES
  · refine ⟨hlt, ?_⟩
    rw [schedule_of_prefixTable run s l h hlt process priority] at hs
    obtain ⟨_, hl, _, _, hst, hc⟩ := h
    simp only [Option.some.injEq, Prod.mk.injEq] at hs
    obtain ⟨hs1, _⟩ := hs
    subst hs1
    refine ⟨by simp; omega, ?_, by simp, by simp, hst, hc⟩
    intro e he
    rw [List.mem_append] at he
    rcases he with he | he
    · exact hl e he
    · simp at he
      rw [he]
  · exfalso
    obtain ⟨hle, _, ht, hn, _, _⟩ := h
    have hlen : l.length = MAX_PROCESSES := by omega
    have hnone : s.getNextAvailablePid = none := by
      unfold getNextAvailablePid entry
      rw [hn, hlen]
      simp
    unfold schedule at hs
    rw [hnone] at hs
    simp at hs

/-- Before `start`, `kill` writes `ptable[-1]`: it has no state to return. -/
theorem kill_of_prefixTable (s : Scheduler) (l : List ProcessData) (h : s.PrefixTable l) :
    s.kill = none := by
  obtain ⟨_, _, _, _, _, hc⟩ := h
  unfold kill setEntry
  rw [hc]
  simp

/-- Every state reached by `schedule` and `kill` before `start` has a prefix
table. -/
theorem prefixTable_of_reachable (run : RunBehaviour) (s : Scheduler)
    (h : Reachable run s) : ∃ l, s.PrefixTable l := by
  induction h with
  | init =>
    refine ⟨[], ?_⟩
    refine ⟨by simp, by simp, ?_, rfl, rfl, rfl⟩
    simp [init]
  | schedule s s1 process priority pid _ hs ih =>
    obtain ⟨l, hl⟩ := ih
    exact ⟨_, (prefixTable_after_schedule run s s1 l hl process priority pid hs).2⟩
  | kill s s1 r _ hk ih =>
    obtain ⟨l, hl⟩ := ih
    rw [kill_of_prefixTable s l hl] at hk
    simp at hk

/-- The node `enqueue` creates is in the queue afterwards. -/
theorem mem_enqueueAfter {T : Type} (c : Int) (rest : List (PriorityNode T))
    (node : PriorityNode T) : node ∈ PriorityQueue.enqueueAfter c rest node := by
  induction rest generalizing c with
  | nil => simp [PriorityQueue.enqueueAfter]
  | cons n rest ih =>
    unfold PriorityQueue.enqueueAfter
    split
    · exact List.mem_cons_of_mem _ (ih _)
    · exact List.mem_cons_self _ _

/-- The method `getNextAvailablePid` has no negative result: the probe
`(hint + 1) % MAX_PROCESSES` never equals the hint. -/
theorem getNextAvailablePid_nonneg (s : Scheduler) (pid : Int)
    (h : s.getNextAvailablePid = some pid) : 0 ≤ pid := by
  unfold getNextAvailablePid at h
  cases he : s.entry s.nextValidPid with
  | none => rw [he] at h; simp at h
  | some e =>
    rw [he] at h
    have hb : 0 ≤ s.nextValidPid ∧ s.nextValidPid < (MAX_PROCESSES : Nat) := by
      unfold entry at he
      by_contra hc
      rw [if_neg hc] at he
      simp at he
    have hM : ((MAX_PROCESSES : Nat) : Int) = 128 := rfl
    rw [hM] at h hb
    have hne : ¬ ((s.nextValidPid + 1) % 128 = s.nextValidPid) := by omega
    simp only [hne, if_false] at h
    split at h
    · simp at h; omega
    · simp at h; omega

/-- No call of `schedule` returns a negative value. -/
theorem schedule_result_nonneg (run : RunBehaviour) (s s1 : Scheduler) (process : Runnable)
    (priority pid : Int) (h : s.schedule run process priority = some (s1, pid)) : 0 ≤ pid := by
  unfold schedule at h
  cases hg : s.getNextAvailablePid with
  | none => rw [hg] at h; simp at h
  | some p =>
    have hp := getNextAvailablePid_nonneg s p hg
    rw [hg] at h
    have hnn : ¬ (p < 0) := by omega
    simp only [hnn, if_false] at h
    split at h
    · simp at h
    · split at h
      · simp at h
      · split at h
        · generalize yield run _ = y at h
          cases y with
          | none => simp at h
          | some y1 =>
            have h2 : (y1, p) = (s1, pid) := Option.some.inj h
            have h3 : p = pid := congrArg Prod.snd h2
            omega
        · simp only [Option.some.injEq, Prod.mk.injEq] at h
          omega

/-- On a table filled by `MAX_PROCESSES` allocations the hint is
`MAX_PROCESSES` and `schedule` reads `ptable[MAX_PROCESSES]`. -/
theorem schedule_of_full_prefixTable (run : RunBehaviour) (s : Scheduler)
    (l : List ProcessData) (h : s.PrefixTable l) (hlen : l.length = MAX_PROCESSES)
    (process : Runnable) (priority : Int) : s.schedule run process priority = none := by
  obtain ⟨_, _, _, hn, _, _⟩ := h
  have hnone : s.getNextAvailablePid = none := by
    unfold getNextAvailablePid entry
    rw [hn, hlen]
    simp
  unfold schedule
  rw [hnone]

theorem scheduleAll_of_prefixTable (run : RunBehaviour) (xs : List (Runnable × Int)) :
    ∀ (s : Scheduler) (l : List ProcessData), s.PrefixTable l →
      l.length + xs.length ≤ MAX_PROCESSES →
      ∃ s1 l1, s.scheduleAll run xs = some s1 ∧ s1.PrefixTable l1 ∧
        l1.length = l.length + xs.length := by
  induction xs with
  | nil => intro s l h _; exact ⟨s, l, rfl, h, by simp⟩
  | cons x xs ih =>
    intro s l h hlen
    have hlt : l.length < MAX_PROCESSES := by simp at hlen; omega
    have hs := schedule_of_prefixTable run s l h hlt x.1 x.2
    have hp := (prefixTable_after_schedule run s _ l h x.1 x.2 _ hs).2
    obtain ⟨s1, l1, h1, h2, h3⟩ := ih _ _ hp (by simp at hlen ⊢; omega)
    refine ⟨s1, l1, ?_, h2, by simp at h3 ⊢; omega⟩
    unfold scheduleAll
    rw [hs]
    exact h1

/-- Claim C4, which the code does not meet: on a table with no `DEAD` slot `schedule`
must return -1 and change nothing.  `getNextAvailablePid` probes one slot
only and its wrap test `(hint + 1) % MAX_PROCESSES == hint` never holds, so
no call of `schedule` returns -1.  On the full table with hint 0 the call
returns PID 1 and overwrites the live entry of process 1; on the table filled
by `MAX_PROCESSES` calls of `schedule` the hint is `MAX_PROCESSES` and the
call reads `ptable[MAX_PROCESSES]`, past the table. -/
theorem schedule_full_table_not_rejected :
    fullTableState.liveCount = MAX_PROCESSES ∧
    fullTableState.entry 1 = some (oneShot 1 ProcessState.READY 1) ∧
    (fullTableState.schedule idleRun 99 7).map
        (fun r => (r.2, r.1.entry 1, r.1.nextValidPid, r.1.liveCount))
      = some (1, some (oneShot 99 ProcessState.READY 7), 2, MAX_PROCESSES) ∧
    (∀ (run : RunBehaviour) (s s1 : Scheduler) (r : Runnable) (p : Int),
        s.schedule run r p ≠ some (s1, -1)) ∧
    (∀ run : RunBehaviour, ∃ s,
        Scheduler.init.scheduleAll run (List.replicate MAX_PROCESSES (1, 1)) = some s ∧
        s.liveCount = MAX_PROCESSES ∧
        ∀ (r : Runnable) (p : Int), s.schedule run r p = none) := by
  refine ⟨by decide, by decide, by decide, ?_, ?_⟩
  · intro run s s1 r p h
    have := schedule_result_nonneg run s s1 r p (-1) h
    omega
  · intro run
    have h0 : (init).PrefixTable [] :=
      ⟨by simp, by simp, by simp [init], rfl, rfl, rfl⟩
    obtain ⟨s, l, hs, hl, hlen⟩ :=
      scheduleAll_of_prefixTable run (List.replicate MAX_PROCESSES (1, 1)) init [] h0
        (by simp)
    have hlen1 : l.length = MAX_PROCESSES := by simpa using hlen
    refine ⟨s, hs, ?_, fun r p => schedule_of_full_prefixTable run s l hl hlen1 r p⟩
    rw [liveCount_of_prefixTable s l hl, hlen1]

/-- Claim C5, which the code does not meet: when the head B of `readyList` has a
priority not below that of the current process A, `yield` must requeue A
behind B and dispatch B.  With A = PID 0 and B = PID 1, both of priority 5:
`reschedule` marks A `READY` and enqueues it, `enqueue` links it in front of
B, and `dequeue` hands A itself to `switchContext`; B stays queued.  And when
the table state of A is not `EXECUTING`, which is what `switchContext` leaves
since it marks a copy, B of priority 1 is dispatched over A of priority 5 and
A is not requeued. -/
theorem yield_tie_redispatches_current :
    (yieldState ProcessState.EXECUTING 5 5).rescheduleSelect
      = some ({ yieldState ProcessState.EXECUTING 5 5 with
                  ptable := tableOf [oneShot 10 ProcessState.READY 5,
                                     oneShot 11 ProcessState.READY 5] },
              some 0) ∧
    ((yieldState ProcessState.EXECUTING 5 5).yield idleRun).map
        (fun s => (s.currentPid, s.readyPids)) = some (0, [1]) ∧
    (yieldState ProcessState.READY 5 1).rescheduleSelect
      = some ({ yieldState ProcessState.READY 5 1 with
                  readyList := { nodes := [], count := 0 } },
              some 1) := by
  decide

/-- With a `SUSPENDED` target whose priority does not exceed that of the
current process, `ready` enqueues the PID and returns 0; the table is the one
it was called with. -/
theorem ready_without_preemption (run : RunBehaviour) (s : Scheduler) (pid : Int)
    (b a : ProcessData) (hb : s.entry pid = some b)
    (hstate : b.state = ProcessState.SUSPENDED)
    (ha : s.entry s.currentPid = some a) (hprio : b.priority ≤ a.priority) :
    s.ready run pid =
      some ({ s with readyList := s.readyList.enqueue pid b.priority }, 0) := by
  unfold ready
  rw [hb]
  have hentry : ∀ q : PriorityQueue Int,
      ({ s with readyList := q } : Scheduler).entry s.currentPid = s.entry s.currentPid := by
    intro q; rfl
  simp only [hstate, ne_eq, not_true_eq_false, if_false, hentry, ha]
  have : ¬ (b.priority > a.priority) := by omega
  simp [this]

/-- Claim C6, which the code does not meet: `ready(B)` on a `SUSPENDED` process must
set the table state of B to `READY`.  `ready` writes `READY` to its local copy
`readyProcess`: with A = PID 0 of priority 5 current and B = PID 1 of priority
3 suspended, the call returns 0 and enqueues PID 1, the current PID stays 0,
and the table is unchanged, so slot 1 is still `SUSPENDED`.  With B of
priority 7 the call reschedules, and A itself is dispatched again while B
stays queued and `SUSPENDED`. -/
theorem ready_keeps_table_suspended :
    (suspendedState 5 3).ready idleRun 1
      = some ({ suspendedState 5 3 with
                  readyList := { nodes := [{ item := 1, priority := 3 }], count := 1 } },
              0) ∧
    (suspendedState 5 3).entry 1 = some (oneShot 11 ProcessState.SUSPENDED 3) ∧
    ((suspendedState 5 7).ready idleRun 1).map
        (fun r => (r.2, r.1.entry 1, r.1.currentPid, r.1.readyPids))
      = some (0, some (oneShot 11 ProcessState.SUSPENDED 7), 0, [1]) := by
  decide

end Scheduler

/-! ## Theorems: DCPResponse -/

namespace DCP

/-- The bound `waitForByte` passes to its loop is never used up: every larger
bound gives the same result. -/
theorem waitForByteLoop_fuel (fuel : Nat) :
    ∀ st : ParseState, waitBound st ≤ fuel →
      waitForByteLoop fuel st = waitForByteLoop (waitBound st) st := by
  induction fuel with
  | zero => intro st h; simp [waitBound] at h
  | succ n ih =>
    intro st h
    have hb : waitBound st = (waitBound st - 1) + 1 := by simp [waitBound]
    rw [hb]
    unfold waitForByteLoop
    by_cases hp : peek st = 0
    · by_cases ha : st.attempts > MAX_ATTEMPTS
      · simp [hp, ha]
      · simp only [hp, ha, if_true, if_false]
        have hw : waitBound (sleep { st with attempts := st.attempts + 1 })
            = waitBound st - 1 := by
          simp only [waitBound, sleep, MAX_ATTEMPTS] at *
          omega
        rw [← hw]
        exact ih _ (by omega)
    · simp [hp]

theorem withinBudget_congr (st st1 : ParseState) (hs : st1.sleeps = st.sleeps)
    (ha : st1.attempts = st.attempts) (h : WithinBudget st) : WithinBudget st1 := by
  unfold WithinBudget at *
  rw [hs, ha]; exact h

theorem read_sleeps (st : ParseState) : (read st).2.sleeps = st.sleeps := by
  unfold read; split <;> rfl

theorem read_attempts (st : ParseState) : (read st).2.attempts = st.attempts := by
  unfold read; split <;> rfl

theorem withinBudget_read (st : ParseState) (h : WithinBudget st) :
    WithinBudget (read st).2 :=
  withinBudget_congr st _ (read_sleeps st) (read_attempts st) h

theorem withinBudget_waitForByteLoop (fuel : Nat) :
    ∀ st : ParseState, WithinBudget st → WithinBudget (waitForByteLoop fuel st).2 := by
  induction fuel with
  | zero => intro st h; exact h
  | succ n ih =>
    intro st h
    unfold waitForByteLoop
    split
    · split
      · exact withinBudget_congr st _ rfl rfl h
      · apply ih
        rename_i hgt
        unfold WithinBudget at *
        simp only [sleep]
        refine ⟨?_, ?_⟩
        · push_cast; omega
        · omega
    · exact h

theorem withinBudget_waitForByte (st : ParseState) (h : WithinBudget st) :
    WithinBudget (waitForByte st).2 :=
  withinBudget_waitForByteLoop _ st h

theorem withinBudget_of_wait (st st1 : ParseState) (b : Bool) (h : WithinBudget st)
    (hw : waitForByte st = (b, st1)) : WithinBudget st1 := by
  have := withinBudget_waitForByte st h
  rw [hw] at this
  exact this

theorem withinBudget_parseDeviceIdLoop (remaining : Nat) :
    ∀ (charIndex : Nat) (st : ParseState) (r : Bool × ParseState), WithinBudget st →
      parseDeviceIdLoop remaining charIndex st = some r → WithinBudget r.2 := by
  induction remaining with
  | zero =>
    intro charIndex st r h hr
    simp only [parseDeviceIdLoop, Option.some.injEq] at hr
    rw [← hr]; exact h
  | succ n ih =>
    intro charIndex st r h hr
    unfold parseDeviceIdLoop at hr
    split at hr
    · rename_i st1 hw
      simp only [Option.some.injEq] at hr
      rw [← hr]; exact withinBudget_of_wait st st1 false h hw
    · rename_i st1 hw
      have h1 := withinBudget_of_wait st st1 true h hw
      split at hr
      · simp only [Option.some.injEq] at hr
        rw [← hr]; exact h1
      · split at hr
        · simp at hr
        · refine ih _ _ r ?_ hr
          exact withinBudget_congr st1 _ (read_sleeps st1) (read_attempts st1) h1

theorem withinBudget_parseDeviceId (st : ParseState) (r : Bool × ParseState)
    (h : WithinBudget st) (hr : parseDeviceId st = some r) : WithinBudget r.2 := by
  unfold parseDeviceId at hr
  split at hr
  · simp at hr
  · rename_i st1 hl
    simp only [Option.some.injEq] at hr
    rw [← hr]; exact withinBudget_parseDeviceIdLoop _ _ _ _ h hl
  · rename_i st1 hl
    have h1 := withinBudget_parseDeviceIdLoop _ _ _ _ h hl
    split at hr
    · simp only [Option.some.injEq] at hr
      rw [← hr]
      exact withinBudget_congr st1 _ (read_sleeps st1) (read_attempts st1) h1
    · simp only [Option.some.injEq] at hr
      rw [← hr]
      exact h1

theorem withinBudget_parseSubDeviceIdLoop (remaining : Nat) :
    ∀ (charIndex : Nat) (st : ParseState) (r : Bool × ParseState), WithinBudget st →
      parseSubDeviceIdLoop remaining charIndex st = some r → WithinBudget r.2 := by
  induction remaining with
  | zero =>
    intro charIndex st r h hr
    simp only [parseSubDeviceIdLoop, Option.some.injEq] at hr
    rw [← hr]; exact h
  | succ n ih =>
    intro charIndex st r h hr
    unfold parseSubDeviceIdLoop at hr
    split at hr
    · rename_i st1 hw
      simp only [Option.some.injEq] at hr
      rw [← hr]; exact withinBudget_of_wait st st1 false h hw
    · rename_i st1 hw
      have h1 := withinBudget_of_wait st st1 true h hw
      split at hr
      · simp only [Option.some.injEq] at hr
        rw [← hr]; exact h1
      · split at hr
        · simp at hr
        · refine ih _ _ r ?_ hr
          exact withinBudget_congr st1 _ (read_sleeps st1) (read_attempts st1) h1

theorem withinBudget_parseSubDeviceId (st : ParseState) (r : Bool × ParseState)
    (h : WithinBudget st) (hr : parseSubDeviceId st = some r) : WithinBudget r.2 := by
  unfold parseSubDeviceId at hr
  split at hr
  · simp at hr
  · rename_i st1 hl
    simp only [Option.some.injEq] at hr
    rw [← hr]; exact withinBudget_parseSubDeviceIdLoop _ _ _ _ h hl
  · rename_i st1 hl
    have h1 := withinBudget_parseSubDeviceIdLoop _ _ _ _ h hl
    split at hr
    · simp only [Option.some.injEq] at hr
      rw [← hr]
      exact withinBudget_congr st1 _ (read_sleeps st1) (read_attempts st1) h1
    · simp only [Option.some.injEq] at hr
      rw [← hr]
      exact withinBudget_congr st1 _ (read_sleeps st1) (read_attempts st1) h1

theorem withinBudget_parseSessionIdLoop (remaining : Nat) :
    ∀ (charIndex : Nat) (st : ParseState) (r : Bool × ParseState), WithinBudget st →
      parseSessionIdLoop remaining charIndex st = some r → WithinBudget r.2 := by
  induction remaining with
  | zero =>
    intro charIndex st r h hr
    simp only [parseSessionIdLoop, Option.some.injEq] at hr
    rw [← hr]; exact h
  | succ n ih =>
    intro charIndex st r h hr
    unfold parseSessionIdLoop at hr
    split at hr
    · rename_i st1 hw
      simp only [Option.some.injEq] at hr
      rw [← hr]; exact withinBudget_of_wait st st1 false h hw
    · rename_i st1 hw
      have h1 := withinBudget_of_wait st st1 true h hw
      split at hr
      · simp only [Option.some.injEq] at hr
        rw [← hr]; exact h1
      · split at hr
        · simp at hr
        · refine ih _ _ r ?_ hr
          exact withinBudget_congr st1 _ (read_sleeps st1) (read_attempts st1) h1

theorem withinBudget_parseSessionId (st : ParseState) (r : Bool × ParseState)
    (h : WithinBudget st) (hr : parseSessionId st = some r) : WithinBudget r.2 := by
  unfold parseSessionId at hr
  split at hr
  · simp at hr
  · rename_i st1 hl
    simp only [Option.some.injEq] at hr
    rw [← hr]; exact withinBudget_parseSessionIdLoop _ _ _ _ h hl
  · rename_i st1 hl
    have h1 := withinBudget_parseSessionIdLoop _ _ _ _ h hl
    split at hr
    · simp only [Option.some.injEq] at hr
      rw [← hr]
      exact withinBudget_congr st1 _ (read_sleeps st1) (read_attempts st1) h1
    · simp only [Option.some.injEq] at hr
      rw [← hr]
      exact withinBudget_congr st1 _ (read_sleeps st1) (read_attempts st1) h1

theorem withinBudget_parseSessionTimestampLoop (remaining : Nat) :
    ∀ (digits : List Char) (st : ParseState), WithinBudget st →
      WithinBudget (parseSessionTimestampLoop remaining digits st).2 := by
  induction remaining with
  | zero => intro digits st h; exact h
  | succ n ih =>
    intro digits st h
    unfold parseSessionTimestampLoop
    split
    · rename_i st1 hw
      exact withinBudget_of_wait st st1 false h hw
    · rename_i st1 hw
      have h1 := withinBudget_of_wait st st1 true h hw
      split
      · exact h1
      · split
        · exact withinBudget_congr st1 _ (read_sleeps st1) (read_attempts st1) h1
        · exact ih _ _ (withinBudget_read st1 h1)

theorem withinBudget_parseSessionTimestamp (st : ParseState) (h : WithinBudget st) :
    WithinBudget (parseSessionTimestamp st).2 := by
  unfold parseSessionTimestamp
  split
  · rename_i st1 hl
    have h1 := withinBudget_parseSessionTimestampLoop MAX_LONG_DIGITS [] st h
    rw [hl] at h1
    exact h1
  · rename_i digits st1 hl
    have h1 := withinBudget_parseSessionTimestampLoop MAX_LONG_DIGITS [] st h
    rw [hl] at h1
    split
    · exact withinBudget_congr st1 _ (read_sleeps st1) (read_attempts st1) h1
    · split
      · exact withinBudget_congr st1 _ (read_sleeps st1) (read_attempts st1) h1
      · exact withinBudget_read st1 h1

theorem withinBudget_parseContentLengthLoop (remaining : Nat) :
    ∀ (digits : List Char) (st : ParseState), WithinBudget st →
      WithinBudget (parseContentLengthLoop remaining digits st).2 := by
  induction remaining with
  | zero => intro digits st h; exact h
  | succ n ih =>
    intro digits st h
    unfold parseContentLengthLoop
    split
    · rename_i st1 hw
      exact withinBudget_of_wait st st1 false h hw
    · rename_i st1 hw
      have h1 := withinBudget_of_wait st st1 true h hw
      split
      · exact h1
      · split
        · exact withinBudget_congr st1 _ (read_sleeps st1) (read_attempts st1) h1
        · exact ih _ _ (withinBudget_read st1 h1)

theorem withinBudget_parseContentLength (st : ParseState) (h : WithinBudget st) :
    WithinBudget (parseContentLength st).2 := by
  unfold parseContentLength
  split
  · rename_i st1 hl
    have h1 := withinBudget_parseContentLengthLoop MAX_INT_DIGITS [] st h
    rw [hl] at h1
    exact h1
  · rename_i digits st1 hl
    have h1 := withinBudget_parseContentLengthLoop MAX_INT_DIGITS [] st h
    rw [hl] at h1
    split
    · exact withinBudget_congr st1 _ (read_sleeps st1) (read_attempts st1) h1
    · split
      · exact withinBudget_congr st1 _ (read_sleeps st1) (read_attempts st1) h1
      · exact withinBudget_read st1 h1

theorem withinBudget_parseBodyLoop (remaining : Nat) :
    ∀ (charIndex : Nat) (st : ParseState) (r : Bool × ParseState), WithinBudget st →
      parseBodyLoop remaining charIndex st = some r → WithinBudget r.2 := by
  induction remaining with
  | zero =>
    intro charIndex st r h hr
    simp only [parseBodyLoop, Option.some.injEq] at hr
    rw [← hr]; exact h
  | succ n ih =>
    intro charIndex st r h hr
    unfold parseBodyLoop at hr
    split at hr
    · rename_i st1 hw
      simp only [Option.some.injEq] at hr
      rw [← hr]; exact withinBudget_of_wait st st1 false h hw
    · rename_i st1 hw
      have h1 := withinBudget_of_wait st st1 true h hw
      split at hr
      · simp at hr
      · refine ih _ _ r ?_ hr
        exact withinBudget_congr st1 _ (read_sleeps st1) (read_attempts st1) h1

theorem withinBudget_parseStatus (st : ParseState) (h : WithinBudget st) :
    WithinBudget (parseStatus st).2 := by
  unfold parseStatus
  split
  · rename_i st1 hw
    exact withinBudget_of_wait st st1 false h hw
  · rename_i st1 hw
    have h1 := withinBudget_of_wait st st1 true h hw
    have h2 := withinBudget_read st1 h1
    have h3 := withinBudget_read _ h2
    split
    · exact h2
    · split
      · exact h3
      · exact h3

theorem withinBudget_storeIdentifiers (st st1 : ParseState) (h : WithinBudget st)
    (hr : storeIdentifiers st = some st1) : WithinBudget st1 := by
  unfold storeIdentifiers at hr
  split at hr
  · simp only [Option.some.injEq] at hr
    rw [← hr]; exact h
  · simp at hr

theorem withinBudget_parseBody (st : ParseState) (r : Bool × ParseState)
    (h : WithinBudget st) (hr : parseBody st = some r) : WithinBudget r.2 :=
  withinBudget_parseBodyLoop _ _ _ _ h hr

theorem withinBudget_parseFromStatus (ind : Indeterminate) (st st1 : ParseState)
    (h : WithinBudget st) (hr : parseFromStatus ind st = some st1) : WithinBudget st1 := by
  have hs : WithinBudget (parseStatus st).2 := withinBudget_parseStatus st h
  unfold parseFromStatus at hr
  simp only at hr
  split at hr
  · split at hr
    · split at hr
      · simp at hr
      · rename_i st3 hb
        simp only [Option.some.injEq] at hr
        rw [← hr]
        refine withinBudget_parseBody _ _ ?_ hb
        refine withinBudget_congr _ _ rfl rfl (withinBudget_parseContentLength _ ?_)
        exact withinBudget_congr _ _ rfl rfl hs
      · rename_i st3 hb
        refine withinBudget_storeIdentifiers _ _ ?_ hr
        refine withinBudget_congr _ _ rfl rfl (withinBudget_parseBody _ _ ?_ hb)
        refine withinBudget_congr _ _ rfl rfl (withinBudget_parseContentLength _ ?_)
        exact withinBudget_congr _ _ rfl rfl hs
    · refine withinBudget_storeIdentifiers _ _ ?_ hr
      refine withinBudget_congr _ _ rfl rfl (withinBudget_parseContentLength _ ?_)
      exact withinBudget_congr _ _ rfl rfl hs
  · refine withinBudget_storeIdentifiers _ _ ?_ hr
    exact withinBudget_congr _ _ rfl rfl hs

/-- The stall budget is shared by the whole parse: whatever the stream
delivers, when the constructor returns it has slept once per attempt, at most
`MAX_ATTEMPTS + 1` times. -/
theorem withinBudget_parseResponse (ind : Indeterminate) (client : WiFiClient)
    (st : ParseState) (hr : parseResponse ind client = some st) : WithinBudget st := by
  have h0 : WithinBudget (initialState ind client) := by
    simp [WithinBudget, initialState, MAX_ATTEMPTS]
  unfold parseResponse at hr
  split at hr
  · rename_i st1 hw
    simp only [Option.some.injEq] at hr
    rw [← hr]; exact withinBudget_of_wait _ st1 false h0 hw
  · rename_i st1 hw
    have h1 := withinBudget_of_wait _ st1 true h0 hw
    split at hr
    · simp at hr
    · rename_i st2 hd
      simp only [Option.some.injEq] at hr
      rw [← hr]; exact withinBudget_parseDeviceId _ _ h1 hd
    · rename_i st2 hd
      have h2 := withinBudget_parseDeviceId _ _ h1 hd
      split at hr
      · simp at hr
      · rename_i st3 hsd
        simp only [Option.some.injEq] at hr
        rw [← hr]; exact withinBudget_parseSubDeviceId _ _ h2 hsd
      · rename_i st3 hsd
        have h3 := withinBudget_parseSubDeviceId _ _ h2 hsd
        split at hr
        · simp at hr
        · rename_i st4 hsi
          simp only [Option.some.injEq] at hr
          rw [← hr]; exact withinBudget_parseSessionId _ _ h3 hsi
        · rename_i st4 hsi
          have h4 := withinBudget_parseSessionId _ _ h3 hsi
          have h5 := withinBudget_parseSessionTimestamp _ h4
          simp only at hr
          split at hr
          · simp only [Option.some.injEq] at hr
            rw [← hr]; exact withinBudget_congr _ _ rfl rfl h5
          · refine withinBudget_parseFromStatus ind _ _ ?_ hr
            exact withinBudget_congr _ _ rfl rfl h5

/-- Claim C7, which the code does not meet: a well-formed response must parse into a
record holding exactly its fields.  On the response of scenario S4 the
32 bytes of the session id are written to the 9-byte array `subDeviceId` and
the parse faults.  On the well-formed response
`D:S\nT:42\n20\n5\nhello` the record has `sessionId` empty and `subDeviceId`
"T" (the session id went to `subDeviceId`), `sessionTimestamp` 24 (the digits
are converted last to first), and `contentLength` 0 with an empty body
(`parseStatus` leaves the line feed after the status code, which
`parseContentLength` takes for an empty number); `5\nhello` stays unread. -/
theorem well_formed_response_misparsed :
    parseResponse Indeterminate.zero (delivered happyPathText) = none ∧
    (parseResponse Indeterminate.zero (delivered "D:S\nT:42\n20\n5\nhello")).map
        (fun st => (st.response, st.client))
      = some ({ deviceId := "D", subDeviceId := "T", sessionId := "",
                sessionTimestamp := 24, statusCode := 20, contentLength := 0, data := "" },
              delivered "5\nhello") := by
  decide

/-- Claim C8, which the code does not meet: a parse that ends with `INVALID_RESPONSE`
must leave every field cleared.  On the input of scenario S5,
`DEV0:\nSESS:10\n2X\n`, `parseStatus` clears the record and returns
`INVALID_RESPONSE`, but the constructor goes on to `parseContentLength` and
then copies the buffers into the record: the status is `INVALID_RESPONSE`
and `deviceId` is "DEV0", `subDeviceId` is "SESS".  When the member
`statusCode` happens to hold 55 before it is assigned, the constructor
returns right after the timestamp with `sessionTimestamp` 1. -/
theorem invalid_response_keeps_device_id :
    (parseResponse Indeterminate.zero (delivered "DEV0:\nSESS:10\n2X\n")).map
        (fun st => st.response)
      = some { deviceId := "DEV0", subDeviceId := "SESS", sessionId := "",
               sessionTimestamp := 0, statusCode := INVALID_RESPONSE, contentLength := 0,
               data := "" } ∧
    (parseResponse { Indeterminate.zero with statusCode := INVALID_RESPONSE }
        (delivered "DEV0:\nSESS:10\n2X\n")).map (fun st => st.response)
      = some { deviceId := "", subDeviceId := "", sessionId := "",
               sessionTimestamp := 1, statusCode := INVALID_RESPONSE, contentLength := 0,
               data := "" } := by
  decide

/-- Claim C9, which the code does not meet: a parse that runs out of its stall budget
must leave every field cleared.  On a stream that delivers `DEV0:SUB1\nSESS:`
and then nothing, `parseSessionTimestamp` times out and returns 0, the
constructor tests the status for `INVALID_RESPONSE` only, goes on through
`parseStatus` and `parseContentLength` and copies the buffers into the record:
the status is `RESPONSE_TIMEOUT` and `deviceId` is "DEV0", `subDeviceId` is
"SESS", also when the member `statusCode` held 55 before the parse. -/
theorem timeout_keeps_device_id :
    (parseResponse Indeterminate.zero (delivered "DEV0:SUB1\nSESS:")).map
        (fun st => (st.response, st.sleeps))
      = some ({ deviceId := "DEV0", subDeviceId := "SESS", sessionId := "",
                sessionTimestamp := 0, statusCode := RESPONSE_TIMEOUT, contentLength := 0,
                data := "" }, 21) ∧
    (parseResponse { Indeterminate.zero with statusCode := INVALID_RESPONSE }
        (delivered "DEV0:SUB1\nSESS:")).map (fun st => (st.response, st.sleeps))
      = some ({ deviceId := "DEV0", subDeviceId := "SESS", sessionId := "",
                sessionTimestamp := 0, statusCode := RESPONSE_TIMEOUT, contentLength := 0,
                data := "" }, 21) := by
  decide

/-- Claim C10, which the code does not meet: the parser must sleep at most
`MAX_ATTEMPTS` = 20 times, and exactly 20 times on a stream that never
delivers a byte.  `waitForByte` tests `attempts > MAX_ATTEMPTS` before it
increments, so the values 0 to 20 of `attempts` all pass: on the stream that
never delivers a byte the parser sleeps 21 times and ends with
`RESPONSE_TIMEOUT` and `attempts` = 21.  The counter is shared: after 21
stalls spread over two fields the next empty look times out. -/
theorem silent_stream_sleeps_twenty_one :
    (∀ ind : Indeterminate,
      (parseResponse ind []).map (fun st => (st.response.statusCode, st.sleeps, st.attempts))
        = some (RESPONSE_TIMEOUT, 21, 21)) ∧
    (parseResponse Indeterminate.zero
        (List.replicate 20 none ++ delivered "D:S\nT:4" ++ [none] ++ delivered "2\n20\n")).map
        (fun st => (st.response.statusCode, st.sleeps, st.attempts))
      = some (20, 21, 21) ∧
    (parseResponse Indeterminate.zero
        (List.replicate 20 none ++ delivered "D:S\nT:4" ++ [none, none] ++
          delivered "2\n20\n")).map
        (fun st => (st.response.statusCode, st.sleeps, st.attempts))
      = some (RESPONSE_TIMEOUT, 21, 21) := by
  refine ⟨fun ind => rfl, by decide, by decide⟩

end DCP

/-! ## Theorems: PersistentDID -/

namespace PersistentDID

/-- The checksum determines the device id. -/
theorem deviceIdOfChecksum_checksumOf : ∀ x < 256, deviceIdOfChecksum (checksumOf x) = x := by
  decide

/-- The loop body maps distinct bytes to distinct checksums: `unstep` undoes it. -/
theorem unstep_checksumStep : ∀ m < 256, unstep (checksumStep 0 m) = m := by
  decide

/-- Distinct device ids have distinct checksums. -/
theorem checksumOf_injective (x y : Nat) (hx : x < 256) (hy : y < 256)
    (h : checksumOf x = checksumOf y) : x = y := by
  have h1 := deviceIdOfChecksum_checksumOf x hx
  have h2 := deviceIdOfChecksum_checksumOf y hy
  rw [h] at h1
  rw [← h1, h2]

theorem readDeviceId_eq (e : Storage) (a : Int) :
    readDeviceId e a = readRecord (get e a PDID_SIZE) := rfl

theorem range_six : List.range PDID_SIZE = [0, 1, 2, 3, 4, 5] := by decide

theorem put_at (e : Storage) (a : Int) (b : List Nat) (k : Nat) (hk : k < b.length) :
    put e a b (a + (k : Int)) = b.getD k 0 := by
  unfold put
  have hc : a ≤ a + (k : Int) ∧ a + (k : Int) < a + (b.length : Int) := by
    constructor <;> omega
  rw [if_pos hc]
  have : (a + (k : Int) - a).toNat = k := by omega
  rw [this]

/-- Reading back what `put` stored. -/
theorem get_put (e : Storage) (a : Int) (b : List Nat) (hb : b.length = PDID_SIZE) :
    get (put e a b) a PDID_SIZE = b := by
  unfold get
  apply List.ext_getElem
  · simp [hb]
  · intro n h1 h2
    simp only [List.getElem_map, List.getElem_range]
    rw [put_at e a b n h2]
    simp [List.getD_eq_getElem?_getD, h2]

/-- The six bytes `writeDeviceId` leaves at `startAddr`. -/
theorem stored_bytes (tail : Nat) (e : Storage) (x : Nat) (a : Int) :
    get (writeDeviceId tail e x a).1 a PDID_SIZE
      = [PDID_MAGIC_NUMBER, x, 0, 0, checksumOf x, tail] := by
  unfold writeDeviceId
  simp only
  rw [get_put _ _ _ (by rfl)]
  simp [PersistentDId.bytes, calculateChecksum, checksumOf, POINTER_SIZE]

/-- Reading from a storage with one byte of the record replaced. -/
theorem get_corrupt (e : Storage) (a : Int) (i v : Nat) :
    get (corrupt e (a + (i : Int)) v) a PDID_SIZE = (get e a PDID_SIZE).set i v := by
  unfold get
  apply List.ext_getElem
  · simp
  · intro n h1 h2
    simp only [List.getElem_map, List.getElem_range, List.getElem_set, List.length_map,
      List.length_range] at *
    unfold corrupt
    by_cases hn : i = n
    · subst hn; simp
    · have : ¬ (a + (n : Int) = a + (i : Int)) := by omega
      simp [this, hn]

/-- The byte `writeDeviceId` leaves at offset `k` of the record. -/
theorem stored_at (tail : Nat) (e : Storage) (x : Nat) (a : Int) (k : Nat) (hk : k < PDID_SIZE) :
    (writeDeviceId tail e x a).1 (a + (k : Int))
      = [PDID_MAGIC_NUMBER, x, 0, 0, checksumOf x, tail].getD k 0 := by
  have h := stored_bytes tail e x a
  have hg : (get (writeDeviceId tail e x a).1 a PDID_SIZE).getD k 0
      = (writeDeviceId tail e x a).1 (a + (k : Int)) := by
    unfold get
    simp [List.getD_eq_getElem?_getD, hk]
  rw [← hg, h]

/-- What `readDeviceId` computes from six bytes with magic number and padding
in place. -/
theorem readRecord_plain (x c t : Nat) :
    readRecord [PDID_MAGIC_NUMBER, x, 0, 0, c, t] = if c ≠ checksumOf x then 0 else x := by
  simp [readRecord, PersistentDId.ofBytes, calculateChecksum, PersistentDId.bytes,
    POINTER_SIZE, checksumOf]

/-- Claim C12: for every device id `x` in `[1, 255]` and every start address
`a`, `readDeviceId(a)` after `writeDeviceId(x, a)` on the same storage returns
`x`, whatever the storage held before and whatever the unassigned byte of the
struct holds. -/
theorem read_after_write (tail : Nat) (e : Storage) (x : Nat) (a : Int)
    (_hlo : 1 ≤ x) (_hhi : x ≤ 255) :
    readDeviceId (writeDeviceId tail e x a).1 a = x := by
  rw [readDeviceId_eq, stored_bytes, readRecord_plain]
  simp

/-- Claim C12 at scenario S6: device id 0x2A written at address 0 of erased
storage. -/
theorem read_after_write_witness :
    (1 ≤ 0x2A ∧ 0x2A ≤ 255) ∧
    get (writeDeviceId 0 erased 0x2A 0).1 0 PDID_SIZE = [194, 0x2A, 0, 0, 43, 0] ∧
    readDeviceId (writeDeviceId 0 erased 0x2A 0).1 0 = 0x2A :=
  ⟨by decide, by decide, read_after_write 0 erased 0x2A 0 (by decide) (by decide)⟩

/-- Claim C13: for every device id `x`, when one byte of the record written by
`writeDeviceId(x)` (magic number, device id, either padding byte or checksum,
at offset `i` below 5) is replaced by a different byte `v`, `readDeviceId`
returns 0; and the checksums of distinct device ids are distinct. -/
theorem corrupted_record_reads_zero (tail : Nat) (e : Storage) (x : Nat) (a : Int)
    (i v : Nat) (hx : x < 256) (hi : i < 5) (hv : v < 256)
    (hne : v ≠ (writeDeviceId tail e x a).1 (a + (i : Int))) :
    readDeviceId (corrupt (writeDeviceId tail e x a).1 (a + (i : Int)) v) a = 0 ∧
    ∀ y, y < 256 → y ≠ x → checksumOf y ≠ checksumOf x := by
  refine ⟨?_, fun y hy hyx h => hyx (checksumOf_injective y x hy hx h)⟩
  rw [stored_at tail e x a i (by simp [PDID_SIZE]; omega)] at hne
  rw [readDeviceId_eq, get_corrupt, stored_bytes]
  interval_cases i
  · simp only [List.getD_cons_zero] at hne
    simp [readRecord, PersistentDId.ofBytes, hne]
  · have hvx : v ≠ x := by simpa using hne
    have hc : checksumOf x ≠ checksumOf v :=
      fun h => hvx (checksumOf_injective x v hx hv h).symm
    simp only [List.set_cons_succ, List.set_cons_zero]
    rw [readRecord_plain]
    simp [hc]
  · have hv0 : v ≠ 0 := by simpa using hne
    simp [readRecord, PersistentDId.ofBytes, PDID_MAGIC_NUMBER, hv0]
  · have hv0 : v ≠ 0 := by simpa using hne
    simp [readRecord, PersistentDId.ofBytes, PDID_MAGIC_NUMBER, hv0]
  · have hvc : v ≠ checksumOf x := by simpa using hne
    simp only [List.set_cons_succ, List.set_cons_zero]
    rw [readRecord_plain]
    simp [hvc]

/-- Claim C13 at scenario S6: the device id 0x2A of the record at address 0 is
replaced by 0x2B. -/
theorem corrupted_record_reads_zero_witness :
    (0x2A < 256 ∧ 1 < 5 ∧ 0x2B < 256 ∧
      0x2B ≠ (writeDeviceId 0 erased 0x2A 0).1 (0 + ((1 : Nat) : Int))) ∧
    readDeviceId (corrupt (writeDeviceId 0 erased 0x2A 0).1 (0 + ((1 : Nat) : Int)) 0x2B) 0 = 0 :=
  ⟨⟨by decide, by decide, by decide, by decide⟩,
    (corrupted_record_reads_zero 0 erased 0x2A 0 1 0x2B (by decide) (by decide) (by decide)
      (by decide)).1⟩

end PersistentDID

/-! ## Theorems: Scheduler, second part -/

namespace Scheduler

/-- The bound `tick` passes to its wake-up loop is never used up: every
larger bound gives the same result. -/
theorem wakeLoop_fuel (fuel : Nat) :
    ∀ s : Scheduler, s.sleepingList.nodes.length < fuel →
      wakeLoop fuel s = wakeLoop (s.sleepingList.nodes.length + 1) s := by
  induction fuel with
  | zero => intro s h; omega
  | succ n ih =>
    intro s h
    unfold wakeLoop
    by_cases hp : s.sleepingList.peek.delta ≤ 0
    · simp only [hp, if_true]
      cases hn : s.sleepingList.nodes with
      | nil => simp [DeltaList.remove, hn]
      | cons d rest =>
        simp only [DeltaList.remove, hn]
        cases he : s.entry d.value with
        | none => rfl
        | some awoken =>
          simp only
          have hlen : rest.length < n := by
            rw [hn] at h; simp at h; omega
          rw [ih _ (by simpa using hlen)]
          simp
    · simp [hp]

/-- Claim C14, which the code does not meet: when the head of `sleepingList`
comes due, `tick` must pop every leading due entry, set its table state to
`READY` and enqueue it.  `tick` enqueues the PID and reads the table entry for
its priority only: with PID 1 due and PID 2 due in 5 more ticks, PID 1 is
popped and enqueued while slot 1 stays `SLEEPING`.  When every entry of the
list is due the loop goes on after the last one, since `peek()` answers delta
-1 on an empty list, and `remove()` dereferences the null `HEAD->next`.  When
the head is not due only its delta changes, as claimed. -/
theorem tick_wakes_without_marking_ready :
    (sleepingState [{ value := 1, delta := 1 }, { value := 2, delta := 5 }]).tick idleRun
      = some { sleepingState [{ value := 2, delta := 5 }] with
                 readyList := { nodes := [{ item := 1, priority := 3 }], count := 1 } } ∧
    (sleepingState [{ value := 2, delta := 5 }]).entry 1
      = some (oneShot 11 ProcessState.SLEEPING 3) ∧
    (sleepingState [{ value := 1, delta := 1 }]).tick idleRun = none ∧
    (sleepingState [{ value := 1, delta := 2 }, { value := 2, delta := 5 }]).tick idleRun
      = some (sleepingState [{ value := 1, delta := 1 }, { value := 2, delta := 5 }]) := by
  decide

/-- When more than one repetition is left, `postExecute` returns the table
it was called with: the decrement and the state `SLEEPING` went to copies. -/
theorem postExecute_table_unchanged (s s1 : Scheduler) (pid : Int) (e : ProcessData)
    (he : s.entry pid = some e) (hrep : 1 < e.repetitions)
    (hs : s.postExecute pid = some s1) : s1.ptable = s.ptable := by
  unfold postExecute at hs
  rw [he] at hs
  have h1 : e.repetitions > 0 := by omega
  have h2 : ¬ (e.repetitions - 1 ≤ 0) := by omega
  simp only [h1, h2, if_true, if_false] at hs
  unfold repeatProcess at hs
  generalize s.sleepingList.insert pid _ = r at hs
  cases r with
  | none => simp at hs
  | some l =>
    have h3 : ({ s with sleepingList := l } : Scheduler) = s1 := Option.some.inj hs
    rw [← h3]

/-- Claim C15, which the code does not meet: `postExecute` must store
`repetitions - 1` in the table and, when repetitions are left, set the slot
to `SLEEPING`, so that a process scheduled with `n` repetitions runs `n` times.
`postExecute` works on a copy of the entry: with 2 repetitions the PID is
inserted into `sleepingList` with delta 5, but the table still says 2
repetitions and `READY`, after the first completion and after any later one.
With 1 repetition the slot is cleared, as claimed. -/
theorem postExecute_keeps_repetitions :
    (repeatingState 2).postExecute 0
      = some { repeatingState 2 with
                 sleepingList := { headItem := none, nodes := [{ value := 0, delta := 5 }] } } ∧
    (repeatingState 2).entry 0
      = some { process := some 10, state := ProcessState.READY, priority := 1,
               repetitions := 2, interval := 5 } ∧
    (repeatingState 1).postExecute 0
      = some { repeatingState 1 with ptable := tableOf [ProcessData.zero] } := by
  decide

/-- Claim C16 fails as stated: for the one-shot process of slot 0, with
`repetitions == 0`, `postExecute` returns the state it was called with and
the slot is still `READY`, not `DEAD`. -/
theorem postExecute_one_shot_not_dead :
    (repeatingState 0).postExecute 0 = some (repeatingState 0) ∧
    (repeatingState 0).entry 0
      = some { process := some 10, state := ProcessState.READY, priority := 1,
               repetitions := 0, interval := 5 } := by
  decide

/-- Claim C16 as amended: for every process whose table entry has
`repetitions == 0`, `postExecute` changes nothing; the slot keeps its state. -/
theorem postExecute_one_shot_unchanged (s : Scheduler) (pid : Int) (e : ProcessData)
    (he : s.entry pid = some e) (hrep : e.repetitions = 0) :
    s.postExecute pid = some s := by
  unfold postExecute
  rw [he]
  simp [hrep]

/-- Claim C16 as amended, at the one-shot process of slot 0. -/
theorem postExecute_one_shot_unchanged_witness :
    (repeatingState 0).entry 0
      = some { process := some 10, state := ProcessState.READY, priority := 1,
               repetitions := 0, interval := 5 } ∧
    (repeatingState 0).postExecute 0 = some (repeatingState 0) :=
  ⟨by decide,
    postExecute_one_shot_unchanged (repeatingState 0) 0
      { process := some 10, state := ProcessState.READY, priority := 1,
        repetitions := 0, interval := 5 } (by decide) rfl⟩

/-- Claim C17, which the code does not meet: `suspend` of a `READY` process
must set its table state to `SUSPENDED`.  `suspend` writes `SUSPENDED` to its
local copy `suspendedProcess`: with PID 1 `READY` and queued, the call returns
0 and removes PID 1 from `readyList`, and slot 1 is still `READY`.  On a
`SUSPENDED` target the call returns -1 and changes nothing, as claimed. -/
theorem suspend_keeps_table_ready :
    (yieldState ProcessState.EXECUTING 5 3).suspend idleRun 1
      = some ({ yieldState ProcessState.EXECUTING 5 3 with
                  readyList := { nodes := [], count := 0 } }, 0) ∧
    (yieldState ProcessState.EXECUTING 5 3).entry 1
      = some (oneShot 11 ProcessState.READY 3) ∧
    (suspendedState 5 3).suspend idleRun 1 = some (suspendedState 5 3, -1) := by
  decide

/-- On a target that is not `SUSPENDED`, `ready` returns -1 and changes
nothing. -/
theorem ready_not_suspended (run : RunBehaviour) (s : Scheduler) (pid : Int)
    (e : ProcessData) (he : s.entry pid = some e)
    (hstate : e.state ≠ ProcessState.SUSPENDED) : s.ready run pid = some (s, -1) := by
  unfold ready
  rw [he]
  simp [hstate]

/-- Claim C18, which the code does not meet: `suspend(pid)` followed by
`ready(pid)` on a `READY` process must return 0 twice and leave the PID queued
once.  Since `suspend` leaves the table state `READY`, the following `ready`
finds a target that is not `SUSPENDED`: it returns -1, and PID 1 stays out of
`readyList` while its slot says `READY`. -/
theorem suspend_then_ready_loses_process :
    ((yieldState ProcessState.EXECUTING 5 3).suspend idleRun 1).map (fun r => r.2) = some 0 ∧
    (((yieldState ProcessState.EXECUTING 5 3).suspend idleRun 1).bind
        (fun r => r.1.ready idleRun 1)).map
        (fun r => (r.2, r.1.readyPids, r.1.entry 1))
      = some (-1, [], some (oneShot 11 ProcessState.READY 3)) := by
  decide

/-- With the hint inside the table, `getNextAvailablePid` returns an index
of the table. -/
theorem getNextAvailablePid_of_hintInTable (s : Scheduler) (h : s.HintInTable) :
    ∃ pid e, s.getNextAvailablePid = some pid ∧ 0 ≤ pid ∧ s.entry pid = some e := by
  obtain ⟨hlen, h0, h1⟩ := h
  have hM : ((MAX_PROCESSES : Nat) : Int) = 128 := rfl
  have hentry : ∀ p : Int, 0 ≤ p → p < 128 → ∃ e, s.entry p = some e := by
    intro p hp0 hp1
    unfold entry
    rw [hM, if_pos ⟨hp0, hp1⟩]
    have hlt : p.toNat < s.ptable.length := by
      rw [hlen]; show p.toNat < 128; omega
    exact ⟨s.ptable[p.toNat], List.getElem?_eq_getElem hlt⟩
  rw [hM] at h1
  obtain ⟨e, he⟩ := hentry s.nextValidPid h0 h1
  unfold getNextAvailablePid
  rw [he, hM]
  have hne : ¬ ((s.nextValidPid + 1) % 128 = s.nextValidPid) := by omega
  simp only [hne, if_false]
  by_cases hd : e.state ≠ ProcessState.DEAD
  · obtain ⟨e1, he1⟩ := hentry ((s.nextValidPid + 1) % 128) (by omega) (by omega)
    exact ⟨_, e1, by simp [hd], by omega, he1⟩
  · exact ⟨_, e, by simp [hd], h0, he⟩

/-- Claim C20, which the code does not meet: a successful `scheduleInterval`
must leave slot `pid` with the runnable, priority, repetitions, clamped
interval and state `SLEEPING`.  `scheduleInterval` assigns these to its local
copy `processData`: on a fresh scheduler the call with interval 1, 2
repetitions and priority 4 returns PID 0, inserts PID 0 with delta 3 and moves
the hint to 1, and slot 0 is still all zero, so `DEAD`. -/
theorem scheduleInterval_leaves_slot_dead :
    Scheduler.init.scheduleInterval true idleRun 7 1 2 4
      = some ({ Scheduler.init with
                  nextValidPid := 1,
                  sleepingList := { headItem := none, nodes := [{ value := 0, delta := 3 }] } },
              0) ∧
    Scheduler.init.entry 0 = some ProcessData.zero := by
  decide

end Scheduler

/-! ## Theorems: DCPResponse, second part -/

namespace DCP

/-- Claim C11, which the code does not meet: after a status code of 24, 50, 54
or 55 the parser must stop, without parsing a content length or a body.  The
test before `parseContentLength` joins four inequalities with `||` and holds
for every status.  After status 50 the bytes `7\n` are parsed as content
length 7 and seven more bytes are consumed as body.  After status 24 on a
stream that then stays silent the parser waits for a content length, uses up
the stall budget and ends with `RESPONSE_TIMEOUT`. -/
theorem no_content_status_still_parses_length :
    (parseResponse Indeterminate.zero (delivered "D:S\nT:1\n507\nabcdefg")).map
        (fun st => (st.response.statusCode, st.response.contentLength, st.client))
      = some (SERVER_ERROR, 7, []) ∧
    (parseResponse Indeterminate.zero (delivered "D:S\nT:1\n24")).map
        (fun st => (st.response.statusCode, st.sleeps))
      = some (RESPONSE_TIMEOUT, 21) ∧
    (∀ status : Int,
      status ≠ SUCCESS_NOCONTENT ∨ status ≠ SERVER_ERROR ∨ status ≠ RESPONSE_TIMEOUT ∨
        status ≠ INVALID_RESPONSE) := by
  refine ⟨by decide, by decide, ?_⟩
  intro status
  simp only [SUCCESS_NOCONTENT, SERVER_ERROR, RESPONSE_TIMEOUT, INVALID_RESPONSE]
  omega

end DCP

/-! ## Theorems: PriorityQueue and DeltaList, second part -/

namespace PriorityQueue

variable {T : Type}

/-- The loop of `remove` keeps the nodes that do not hold `item`, in their
order, and lowers the count once per node that does. -/
theorem removeLoop_eq [DecidableEq T] (item : T) (nodes : List (PriorityNode T)) :
    ∀ c : Int, removeLoop item nodes c
      = (nodes.filter (fun n => decide (n.item ≠ item)),
         c - ((nodes.filter (fun n => decide (n.item = item))).length : Int)) := by
  induction nodes with
  | nil => intro c; simp [removeLoop]
  | cons n rest ih =>
    intro c
    unfold removeLoop
    by_cases h : n.item = item
    · simp only [h, ne_eq, not_true_eq_false, if_false, ih]
      simp only [List.filter_cons, h, decide_True, decide_False, not_true_eq_false,
        if_true, if_false, List.length_cons, Prod.mk.injEq, true_and]
      push_cast
      exact ⟨rfl, by omega⟩
    · simp only [h, ne_eq, not_false_eq_true, if_true, ih]
      simp [List.filter_cons, h]

/-- Claim C21: for every queue `q` and value `x`, after `remove(x)` the nodes
are exactly the nodes of `q` that do not hold `x`, in their original order, so
no node holds `x`, and the count has gone down by the number of nodes that
held `x`. -/
theorem remove_removes_every_occurrence [DecidableEq T] (q : PriorityQueue T) (x : T) :
    (q.remove x).nodes = q.nodes.filter (fun n => decide (n.item ≠ x)) ∧
    (∀ n ∈ (q.remove x).nodes, n.item ≠ x) ∧
    (q.remove x).count
      = q.count - ((q.nodes.filter (fun n => decide (n.item = x))).length : Int) := by
  have h := removeLoop_eq x q.nodes q.count
  refine ⟨?_, ?_, ?_⟩
  · simp [remove, h]
  · intro n hn
    have hn1 : n ∈ q.nodes.filter (fun n => decide (n.item ≠ x)) := by
      simpa [remove, h] using hn
    simpa using (List.mem_filter.mp hn1).2
  · simp [remove, h]

end PriorityQueue

namespace DeltaList

/-- Claim C22, which the code does not meet: `decrement(v)` must subtract `v`
from the delta of the head.  The body of `decrement` is
`HEAD->next->item->delta--` and does not use its parameter: on the list that
holds value 1 with delta 5, `decrement(3)` leaves delta 4, and for every list
and every `v` the result is that of `decrement(1)`. -/
theorem decrement_ignores_value :
    ((new : DeltaList Nat).insert 1 5).bind (fun l => l.decrement 3)
      = some { headItem := none, nodes := [{ value := 1, delta := 4 }] } ∧
    (∀ (l : DeltaList Nat) (v : Int), l.decrement v = l.decrement 1) := by
  refine ⟨by decide, fun l v => rfl⟩

/-- Claim C23, which the code does not meet: `isEmpty()` must be true exactly
when the list holds no item.  The body is `return (HEAD->next != NULL)`, the
negation: on a new list `isEmpty()` is false while `peek()` answers the
sentinel with delta -1, after one insert it is true, and in general it is true
exactly when the list holds a node. -/
theorem isEmpty_inverted :
    (new : DeltaList Nat).isEmpty = false ∧
    (new : DeltaList Nat).peek = { value := 0, delta := -1 } ∧
    ((new : DeltaList Nat).insert 1 5).map (fun l => l.isEmpty) = some true ∧
    (∀ l : DeltaList Nat, l.isEmpty = true ↔ l.nodes ≠ []) := by
  refine ⟨by decide, by decide, by decide, ?_⟩
  intro l
  cases h : l.nodes <;> simp [isEmpty, h]

/-- Claim C24, which the code does not meet: after any inserts the list must
be ordered by fire time, with equal times in insertion order.  The second
`insert` on a new list dereferences the null item of the sentinel, so
`insert(1, 0); insert(2, 0)` builds no list.  Were the sentinel to hold an
item of delta 0, `insert(1, 7); insert(2, 0); insert(3, 5)` would give the
order 1, 3, 2 with stored deltas 7, 5, -5: value 2, inserted with time 0,
would come last. -/
theorem insert_order_broken :
    (new : DeltaList Nat).insertAll [(1, 0), (2, 0)] = none ∧
    (({ headItem := some { value := 0, delta := 0 }, nodes := [] } : DeltaList Nat).insertAll
        [(1, 7), (2, 0), (3, 5)]).map (fun l => l.nodes)
      = some [{ value := 1, delta := 7 }, { value := 3, delta := 5 },
              { value := 2, delta := -5 }] := by
  decide

/-- The bound `advance` passes to `removeDue` is never used up: every larger
bound gives the same result. -/
theorem removeDue_fuel {T : Type} [Inhabited T] (fuel : Nat) :
    ∀ l : DeltaList T, l.nodes.length < fuel →
      removeDue fuel l = removeDue (l.nodes.length + 1) l := by
  induction fuel with
  | zero => intro l h; omega
  | succ n ih =>
    intro l h
    unfold removeDue
    by_cases hp : l.peek.delta ≤ 0
    · simp only [hp, if_true]
      cases hn : l.nodes with
      | nil => simp [remove, hn]
      | cons d rest =>
        simp only [remove, hn]
        have hlen : rest.length < n := by
          rw [hn] at h; simp at h; omega
        rw [ih _ (by simpa using hlen)]
        simp
    · simp [hp]

/-- Claim C25, which the code does not meet: `decrement(k)` followed by
`remove()` while `peek().delta <= 0` must remove exactly the values with fire
time at most `k`.  Since `decrement` subtracts 1 whatever `k` is, on the list
that holds value 1 with fire time 5 `decrement(5)` leaves delta 4 and nothing
is removed.  On the list that holds value 1 with fire time 1 the value is
removed, and then `peek()` answers delta -1 on the empty list, so the loop
calls `remove()` once more and dereferences the null `HEAD->next`. -/
theorem advance_misses_due_values :
    ((new : DeltaList Nat).insert 1 5).bind (fun l => l.advance 5)
      = some ([], { headItem := none, nodes := [{ value := 1, delta := 4 }] }) ∧
    ((new : DeltaList Nat).insert 1 1).bind (fun l => l.advance 1) = none := by
  decide

/-- Claim C26, which the code does not meet: the inserts of scenario S1 must
build a list of five and then six nodes.  With 1 to 6 for A to F, the second
insert already dereferences the null item of the sentinel, and so does
`insert(D, 5)` on the five-node list of the class comment.  Were the sentinel
to hold an item of delta 0, that insert would put D behind E, not before it,
and leave F with delta -1. -/
theorem scenario_inserts_fault :
    (new : DeltaList Nat).insertAll [(1, 0), (2, 1), (3, 3), (5, 7), (6, 0)] = none ∧
    (new : DeltaList Nat).insertAll [(1, 0), (2, 1)] = none ∧
    ({ headItem := none,
       nodes := [{ value := 1, delta := 0 }, { value := 2, delta := 1 },
                 { value := 3, delta := 3 }, { value := 5, delta := 7 },
                 { value := 6, delta := 0 }] } : DeltaList Nat).insert 4 5 = none ∧
    (({ headItem := some { value := 0, delta := 0 },
        nodes := [{ value := 1, delta := 0 }, { value := 2, delta := 1 },
                  { value := 3, delta := 3 }, { value := 5, delta := 7 },
                  { value := 6, delta := 0 }] } : DeltaList Nat).insert 4 5).map
        (fun l => l.nodes)
      = some [{ value := 1, delta := 0 }, { value := 2, delta := 1 },
              { value := 3, delta := 3 }, { value := 5, delta := 7 },
              { value := 4, delta := 1 }, { value := 6, delta := -1 }] := by
  decide

end DeltaList

/-! ## Theorems: Scheduler, third part -/

namespace Scheduler

/-- Claim C27, which the code does not meet: after `schedule(P1, 5)`,
`schedule(P2, 5)`, `schedule(P3, 10)` and `start()` the dispatch order must be
P3, P1, P2.  The PIDs are 0, 1 and 2.  `enqueue` links every new node in at
the front, so `readyList` holds 2, 1, 0 and the PIDs leave it as P3, P2, P1.
`start()` dequeues PID 2 and calls `run()` without assigning the current PID,
which is still -1; the `yield()` of P3 then reads `ptable[-1]`.  Were the
current PID that of P3, its `yield()` would hand PID 1, that is P2, to
`switchContext`. -/
theorem round_robin_order_broken :
    roundRobinSetup.map (fun s => (s.readyPids, PriorityQueue.drain 3 s.readyList))
      = some ([2, 1, 0], [2, 1, 0]) ∧
    (roundRobinSetup.bind (fun s => (startBegin s).startSelect)).map
        (fun r => (r.2, r.1.currentPid, r.1.readyPids,
          r.1.rescheduleSelect.map (fun x => x.2)))
      = some (some 2, -1, [1, 0], none) ∧
    (roundRobinSetup.bind (fun s => (startBegin s).startSelect)).bind
        (fun r => (enterContext r.1 2).rescheduleSelect.map (fun x => (x.2, x.1.readyPids)))
      = some (some 1, [0]) := by
  decide

/-- Claim C28, which the code does not meet: after `sleep(10)` of P1 the tenth
`tick()` must move P1 from `sleepingList` to `readyList`.  P1 is PID 0 of
priority 5, P2 is PID 1 of priority 1.  `sleep(10)` inserts PID 0 with delta
10, marks slot 0 `SLEEPING` and hands PID 1 to `switchContext`; nine ticks
lower the delta to 1 and leave `readyList` empty, as claimed.  The tenth tick
pops PID 0 and then, `peek()` answering delta -1 on the empty list, calls
`remove()` again and dereferences the null `HEAD->next`. -/
theorem sleep_then_tenth_tick_faults :
    ((yieldState ProcessState.EXECUTING 5 1).sleepSelect true 10).map
        (fun r => (r.2, r.1.sleepingList.nodes, (r.1.entry 0).map (fun e => e.state),
          r.1.readyPids))
      = some (some 1, [{ value := 0, delta := 10 }], some ProcessState.SLEEPING, []) ∧
    (((yieldState ProcessState.EXECUTING 5 1).sleepSelect true 10).bind
        (fun r => tickTimes idleRun 9 (enterContext r.1 1))).map
        (fun s => (s.sleepingList.nodes, s.readyPids))
      = some ([{ value := 0, delta := 1 }], []) ∧
    ((yieldState ProcessState.EXECUTING 5 1).sleepSelect true 10).bind
        (fun r => tickTimes idleRun 10 (enterContext r.1 1))
      = none := by
  decide

end Scheduler

/-! ## Theorems: DCPResponse, third part -/

namespace DCP

/-- Claim C29, which the code does not meet: a response delivered with fewer
than `MAX_ATTEMPTS` stalls must parse into the same record as without stalls.
`parseStatus` waits for the first status digit only and reads the second one
at once: with a single stall between the digits of `20` the second `read()`
finds the stream empty and the record ends with `INVALID_RESPONSE`, where the
same bytes without a stall, or with the stall before the first digit, give
status 20. -/
theorem stall_between_status_digits_invalid :
    (parseResponse Indeterminate.zero (delivered "D:S\nT:1\n20\n")).map
        (fun st => (st.response.statusCode, st.sleeps)) = some (SUCCESS, 0) ∧
    (parseResponse Indeterminate.zero
        (delivered "D:S\nT:1\n" ++ [none] ++ delivered "20\n")).map
        (fun st => (st.response.statusCode, st.sleeps)) = some (SUCCESS, 1) ∧
    (parseResponse Indeterminate.zero
        (delivered "D:S\nT:1\n2" ++ [none] ++ delivered "0\n")).map
        (fun st => (st.response.statusCode, st.sleeps)) = some (INVALID_RESPONSE, 1) := by
  decide

theorem failed_statusInRange (st : ParseState) (h : Failed st) : StatusInRange st := by
  unfold Failed at h
  unfold StatusInRange
  simp only [RESPONSE_TIMEOUT, INVALID_RESPONSE] at h
  omega

theorem failed_congr (st st1 : ParseState)
    (hs : st1.response.statusCode = st.response.statusCode) (h : Failed st) : Failed st1 := by
  unfold Failed at *
  rw [hs]; exact h

theorem statusInRange_congr (st st1 : ParseState)
    (hs : st1.response.statusCode = st.response.statusCode) (h : StatusInRange st) :
    StatusInRange st1 := by
  unfold StatusInRange at *
  rw [hs]; exact h

theorem read_status (st : ParseState) :
    (read st).2.response.statusCode = st.response.statusCode := by
  unfold read; split <;> rfl

theorem failed_timeout (st : ParseState) : Failed (handleResponseTimeout st) :=
  Or.inl rfl

theorem failed_invalid (st : ParseState) : Failed (handleInvalidResponse st) :=
  Or.inr rfl

/-- When `waitForByte` gives up, the timeout handler has run. -/
theorem failed_waitForByteLoop (fuel : Nat) :
    ∀ st : ParseState, waitBound st ≤ fuel → (waitForByteLoop fuel st).1 = false →
      Failed (waitForByteLoop fuel st).2 := by
  induction fuel with
  | zero => intro st h; simp [waitBound] at h
  | succ n ih =>
    intro st h hf
    unfold waitForByteLoop at hf ⊢
    by_cases hp : peek st = 0
    · by_cases ha : st.attempts > MAX_ATTEMPTS
      · simp only [hp, ha, if_true]
        exact failed_timeout st
      · simp only [hp, ha, if_true, if_false] at hf ⊢
        have hw : waitBound (sleep { st with attempts := st.attempts + 1 }) ≤ n := by
          simp only [waitBound, sleep, MAX_ATTEMPTS] at *
          omega
        exact ih _ hw hf
    · simp [hp] at hf

theorem failed_of_wait (st st1 : ParseState) (hw : waitForByte st = (false, st1)) :
    Failed st1 := by
  have h := failed_waitForByteLoop (waitBound st) st (le_refl _)
  unfold waitForByte at hw
  rw [hw] at h
  exact h rfl

theorem failed_parseSessionIdLoop (remaining : Nat) :
    ∀ (charIndex : Nat) (st st2 : ParseState),
      parseSessionIdLoop remaining charIndex st = some (false, st2) → Failed st2 := by
  induction remaining with
  | zero =>
    intro charIndex st st2 hr
    simp [parseSessionIdLoop] at hr
  | succ n ih =>
    intro charIndex st st2 hr
    unfold parseSessionIdLoop at hr
    split at hr
    · rename_i st1 hw
      simp only [Option.some.injEq, Prod.mk.injEq, true_and] at hr
      rw [← hr]; exact failed_of_wait st st1 hw
    · rename_i st1 hw
      split at hr
      · simp at hr
      · split at hr
        · simp at hr
        · exact ih _ _ st2 hr

theorem failed_parseSessionId (st st2 : ParseState) (hr : parseSessionId st = some (false, st2)) :
    Failed st2 := by
  unfold parseSessionId at hr
  split at hr
  · simp at hr
  · rename_i st1 hl
    simp only [Option.some.injEq, Prod.mk.injEq, true_and] at hr
    rw [← hr]; exact failed_parseSessionIdLoop _ _ _ _ hl
  · rename_i st1 hl
    split at hr
    · simp only [Option.some.injEq, Prod.mk.injEq, true_and] at hr
      rw [← hr]; exact failed_invalid _
    · simp at hr

theorem statusInRange_read (st : ParseState) (h : StatusInRange st) :
    StatusInRange (read st).2 :=
  statusInRange_congr st _ (read_status st) h

theorem statusInRange_waitForByteLoop (fuel : Nat) :
    ∀ st : ParseState, StatusInRange st → StatusInRange (waitForByteLoop fuel st).2 := by
  induction fuel with
  | zero => intro st h; exact h
  | succ n ih =>
    intro st h
    unfold waitForByteLoop
    split
    · split
      · exact failed_statusInRange _ (failed_timeout st)
      · exact ih _ (statusInRange_congr st _ rfl h)
    · exact h

theorem statusInRange_of_wait (st st1 : ParseState) (b : Bool) (h : StatusInRange st)
    (hw : waitForByte st = (b, st1)) : StatusInRange st1 := by
  have := statusInRange_waitForByteLoop (waitBound st) st h
  unfold waitForByte at hw
  rw [hw] at this
  exact this

theorem statusInRange_parseContentLengthLoop (remaining : Nat) :
    ∀ (digits : List Char) (st : ParseState), StatusInRange st →
      StatusInRange (parseContentLengthLoop remaining digits st).2 := by
  induction remaining with
  | zero => intro digits st h; exact h
  | succ n ih =>
    intro digits st h
    unfold parseContentLengthLoop
    split
    · rename_i st1 hw
      exact statusInRange_of_wait st st1 false h hw
    · rename_i st1 hw
      have h1 := statusInRange_of_wait st st1 true h hw
      split
      · exact h1
      · split
        · exact failed_statusInRange _ (failed_invalid _)
        · exact ih _ _ (statusInRange_read st1 h1)

theorem statusInRange_parseContentLength (st : ParseState) (h : StatusInRange st) :
    StatusInRange (parseContentLength st).2 := by
  unfold parseContentLength
  split
  · rename_i st1 hl
    have h1 := statusInRange_parseContentLengthLoop MAX_INT_DIGITS [] st h
    rw [hl] at h1
    exact h1
  · rename_i digits st1 hl
    have h1 := statusInRange_parseContentLengthLoop MAX_INT_DIGITS [] st h
    rw [hl] at h1
    split
    · exact failed_statusInRange _ (failed_invalid _)
    · split
      · exact failed_statusInRange _ (failed_invalid _)
      · exact statusInRange_read st1 h1

theorem statusInRange_parseBodyLoop (remaining : Nat) :
    ∀ (charIndex : Nat) (st : ParseState) (r : Bool × ParseState), StatusInRange st →
      parseBodyLoop remaining charIndex st = some r → StatusInRange r.2 := by
  induction remaining with
  | zero =>
    intro charIndex st r h hr
    simp only [parseBodyLoop, Option.some.injEq] at hr
    rw [← hr]; exact h
  | succ n ih =>
    intro charIndex st r h hr
    unfold parseBodyLoop at hr
    split at hr
    · rename_i st1 hw
      simp only [Option.some.injEq] at hr
      rw [← hr]; exact statusInRange_of_wait st st1 false h hw
    · rename_i st1 hw
      have h1 := statusInRange_of_wait st st1 true h hw
      split at hr
      · simp at hr
      · refine ih _ _ r ?_ hr
        exact statusInRange_congr st1 _ (read_status st1) h1

theorem statusInRange_storeIdentifiers (st st1 : ParseState) (h : StatusInRange st)
    (hr : storeIdentifiers st = some st1) : StatusInRange st1 := by
  unfold storeIdentifiers at hr
  split at hr
  · simp only [Option.some.injEq] at hr
    rw [← hr]; exact h
  · simp at hr

/-- The value `parseStatus` returns is 54, 55 or ten times a digit up to 5
plus a digit. -/
theorem parseStatus_value (st : ParseState) :
    0 ≤ (parseStatus st).1 ∧ (parseStatus st).1 ≤ 59 := by
  unfold parseStatus
  split
  · simp [handleResponseTimeout, RESPONSE_TIMEOUT]
  · split
    · simp [handleInvalidResponse, INVALID_RESPONSE]
    · split
      · simp [handleInvalidResponse, INVALID_RESPONSE]
      · rename_i h1 h2
        simp only at h1 h2 ⊢
        omega

theorem statusInRange_parseFromStatus (ind : Indeterminate) (st st1 : ParseState)
    (hr : parseFromStatus ind st = some st1) : StatusInRange st1 := by
  have hs : StatusInRange
      { (parseStatus st).2 with response :=
          { (parseStatus st).2.response with statusCode := (parseStatus st).1 } } :=
    parseStatus_value st
  unfold parseFromStatus at hr
  simp only at hr
  split at hr
  · split at hr
    · split at hr
      · simp at hr
      · rename_i st3 hb
        simp only [Option.some.injEq] at hr
        rw [← hr]
        refine statusInRange_parseBodyLoop _ _ _ (false, st3) ?_ hb
        exact statusInRange_congr _ _ rfl (statusInRange_parseContentLength _ hs)
      · rename_i st3 hb
        refine statusInRange_storeIdentifiers _ _ ?_ hr
        refine statusInRange_congr _ _ rfl
          (statusInRange_parseBodyLoop _ _ _ (true, st3) ?_ hb)
        exact statusInRange_congr _ _ rfl (statusInRange_parseContentLength _ hs)
    · refine statusInRange_storeIdentifiers _ _ ?_ hr
      exact statusInRange_congr _ _ rfl (statusInRange_parseContentLength _ hs)
  · exact statusInRange_storeIdentifiers _ _ hs hr

end DCP

/-! ## Theorems: DCPResponse, fourth part -/

namespace DCP

/-- Claim C32, which the code does not meet: a field longer than its limit
must end the parse with `INVALID_RESPONSE`, and a first line of 17 bytes
without a colon must not be accepted.  `parseDeviceId` leaves its loop after
16 bytes and consumes a colon only if one follows; it has no test for the
terminator.  On the first line `AAAAAAAAAAAAAAAABCDEFGH` the device id is the
16 letters A and `parseSubDeviceId` takes `BCDEFGH` for the sub-device id;
the parse ends with status 20.  A session id of 10 bytes is written past the
9-byte array `subDeviceId`.  A sub-device id of 9 bytes, a timestamp of 11
digits and a content length of 11 digits end with `INVALID_RESPONSE`, as
claimed. -/
theorem long_device_id_accepted :
    ((parseDeviceId (initialState Indeterminate.zero
        (delivered "AAAAAAAAAAAAAAAABCDEFGH\nS:1\n20\n"))).bind
        (fun r => parseSubDeviceId r.2)).map
        (fun r => (r.1, cString r.2.deviceId, cString r.2.subDeviceId))
      = some (true, some "AAAAAAAAAAAAAAAA", some "BCDEFGH") ∧
    (parseResponse Indeterminate.zero
        (delivered "AAAAAAAAAAAAAAAABCDEFGH\nS:1\n20\n")).map
        (fun st => (st.response.statusCode, st.response.deviceId))
      = some (SUCCESS, "AAAAAAAAAAAAAAAA") ∧
    parseResponse Indeterminate.zero (delivered "D:S\n0123456789:1\n20\n") = none ∧
    (parseResponse Indeterminate.zero (delivered "D:123456789\nS:1\n20\n")).map
        (fun st => st.response.statusCode) = some INVALID_RESPONSE ∧
    (parseResponse Indeterminate.zero (delivered "D:S\nT:12345678901\n20\n")).map
        (fun st => st.response.statusCode) = some INVALID_RESPONSE ∧
    (parseContentLength (initialState Indeterminate.zero
        (delivered "12345678901\nhello"))).2.response.statusCode = INVALID_RESPONSE := by
  decide

/-- Claim C37, which the code does not meet: a field of digits, most
significant first, must parse to its decimal value.  The conversion loop
`while(--digitIndex >= 0)` starts at the last digit stored and multiplies the
accumulator by 10 before each earlier one, so the first digit of the field
ends as the least significant.  The timestamp field `42` parses to 24 and
`120` to 21; the content-length field `12` parses to 21, so `parseBody` is
asked for 21 bytes. -/
theorem digits_converted_last_to_first :
    (parseSessionTimestamp (initialState Indeterminate.zero (delivered "42\n20\n"))).1 = 24 ∧
    (parseSessionTimestamp (initialState Indeterminate.zero (delivered "120\n20\n"))).1 = 21 ∧
    (parseResponse Indeterminate.zero (delivered "D:S\nT:120\n20\n")).map
        (fun st => (st.response.statusCode, st.response.sessionTimestamp))
      = some (SUCCESS, 21) ∧
    ((parseContentLength (initialState Indeterminate.zero
        (delivered "12\nhello world!"))).1,
      (parseContentLength (initialState Indeterminate.zero
        (delivered "12\nhello world!"))).2.client)
      = (21, delivered "hello world!") := by
  decide

end DCP

/-! ## Theorems: DCPRequest -/

namespace DCP

/-- The digit loop of `Nat.repr` never shortens the digits it has. -/
theorem toDigitsCore_length_ge (b : Nat) :
    ∀ (f n : Nat) (ds : List Char), ds.length ≤ (Nat.toDigitsCore b f n ds).length := by
  intro f
  induction f with
  | zero => intro n ds; simp [Nat.toDigitsCore]
  | succ f ih =>
    intro n ds
    simp only [Nat.toDigitsCore]
    split
    · simp
    · exact Nat.le_trans (by simp) (ih _ _)

/-- The decimal representation of a number has at least one digit. -/
theorem specDecimal_length_pos (n : Nat) : 0 < (specDecimal n).length := by
  unfold specDecimal
  simp only [List.length_map, Nat.repr, Nat.toDigits, List.asString]
  simp only [Nat.toDigitsCore]
  split
  · simp
  · exact Nat.lt_of_lt_of_le (by simp) (toDigitsCore_length_ge _ _ _ _)

/-- Claim C33, which the code does not meet: `send` must write method name,
space, resource, line feed, session id, colon, space, the timestamp in
decimal, line feed, the body length in decimal, line feed and the body.
`send` passes `millis()` and `data.length()` to `client.write`, which sends
one byte for each, and writes no line feed after either.  For `GET /r`,
session id `S`, body `hi` and `millis()` 1000 the stream holds the bytes of
`GET /r`, line feed, `S: `, then 232, 2 and `hi`, where the frame has `1000`,
line feed, `2`, line feed, `hi`.  For no request and no counter value are the
bytes written those of the frame: the frame is longer.  The flag `sent` is
set, as claimed. -/
theorem send_writes_raw_counter_bytes :
    (((DCPRequest.new DCPMethod.GET "/r" "S").setMessage "hi").send 1000 []).2
      = [71, 69, 84, 32, 47, 114, 10, 83, 58, 32, 232, 2, 104, 105] ∧
    specFrame DCPMethod.GET "/r" "S" "hi" 1000
      = [71, 69, 84, 32, 47, 114, 10, 83, 58, 32, 49, 48, 48, 48, 10, 50, 10, 104, 105] ∧
    (∀ (m : DCPMethod) (r s b : String) (t : Nat),
      (((DCPRequest.new m r s).setMessage b).send t []).2 ≠ specFrame m r s b t) ∧
    (∀ (m : DCPMethod) (r s b : String) (t : Nat),
      (((DCPRequest.new m r s).setMessage b).send t []).1.wasSent = true) := by
  refine ⟨by decide, by decide, ?_, fun _ _ _ _ _ => rfl⟩
  intro m r s b t h
  have hl := congrArg List.length h
  have h1 := specDecimal_length_pos t
  have h2 := specDecimal_length_pos b.length
  simp [DCPRequest.send, DCPRequest.new, DCPRequest.setMessage, writeString, writeValue,
    specFrame] at hl
  omega

end DCP

/-! ## Theorems: IRS -/

namespace IRS

/-- A reset of a supported pin clears the whole mask. -/
theorem resetInterrupt_supported (interruptMask : Nat) (pin : Int)
    (h : pin ∈ SUPPORTED_PINS) : resetInterrupt interruptMask pin = 0 := by
  simp only [SUPPORTED_PINS, List.mem_cons, List.mem_singleton, List.not_mem_nil,
    or_false] at h
  rcases h with h | h | h | h | h | h | h | h <;> subst h <;>
    simp [resetInterrupt, logicalNot, PIN0_MASK, PIN2_MASK, PIN4_MASK, PIN5_MASK,
      PIN12_MASK, PIN13_MASK, PIN14_MASK, PIN15_MASK]

/-- Claim C35, which the code does not meet: `resetInterrupt(p)` must clear
the latch of pin `p` and leave that of every other pin `q` as it was.  Each
case of `resetInterrupt` assigns `!PINn_MASK`, the logical negation of a
non-zero constant, which is 0, where the complement `~PINn_MASK` is meant; so
the reset of any supported pin sets `interruptMask` to 0.  With the handlers
of pins 0 and 2 fired the mask is 3; after `resetInterrupt(0)` it is 0 and
`triggeredInterrupt(2)` is false, though the handler of pin 2 has fired and
pin 2 was not reset.  `triggeredInterrupt(p)` is false after the call, as
claimed. -/
theorem resetInterrupt_clears_other_pins :
    interruptHandler (interruptHandler 0 0) 2 = 3 ∧
    triggeredInterrupt 3 2 = true ∧
    resetInterrupt 3 0 = 0 ∧
    triggeredInterrupt (resetInterrupt 3 0) 2 = false ∧
    triggeredInterrupt (resetInterrupt 3 0) 0 = false ∧
    (∀ p ∈ SUPPORTED_PINS, ∀ q ∈ SUPPORTED_PINS, ∀ interruptMask : Nat,
      triggeredInterrupt (resetInterrupt interruptMask p) q = false) := by
  refine ⟨by decide, by decide, by decide, by decide, by decide, ?_⟩
  intro p hp q _ interruptMask
  rw [resetInterrupt_supported interruptMask p hp]
  simp [triggeredInterrupt]

end IRS

/-! ## Theorems: Scheduler, fourth part -/

namespace Scheduler

/-- Claim C34, which the code does not meet: `schedule` and `scheduleInterval`
must return a negative value and add no process when the priority is outside
`[1, 15]`.  Neither method tests the priority it is given.  On a fresh
scheduler `schedule(r, 0)`, `schedule(r, -3)` and `schedule(r, 16)` each
return PID 0, record the process as `READY` with that priority and queue PID
0 in `readyList`; with the clock feature `scheduleInterval(r, 5, 1, 0)` and
`scheduleInterval(r, 5, 1, 16)` return PID 0 and queue it in `sleepingList`.
No call of `schedule` returns a negative value at all. -/
theorem priority_out_of_range_accepted :
    (Scheduler.init.schedule idleRun 7 0).map (fun r => (r.2, r.1.entry 0, r.1.readyPids))
      = some (0, some (oneShot 7 ProcessState.READY 0), [0]) ∧
    (Scheduler.init.schedule idleRun 7 (-3)).map (fun r => (r.2, r.1.entry 0, r.1.readyPids))
      = some (0, some (oneShot 7 ProcessState.READY (-3)), [0]) ∧
    (Scheduler.init.schedule idleRun 7 16).map (fun r => (r.2, r.1.entry 0, r.1.readyPids))
      = some (0, some (oneShot 7 ProcessState.READY 16), [0]) ∧
    (Scheduler.init.scheduleInterval true idleRun 7 5 1 0).map
        (fun r => (r.2, r.1.sleepingPids)) = some (0, [0]) ∧
    (Scheduler.init.scheduleInterval true idleRun 7 5 1 16).map
        (fun r => (r.2, r.1.sleepingPids)) = some (0, [0]) ∧
    (∀ (run : RunBehaviour) (s : Scheduler) (r : Runnable) (p : Int),
      (s.schedule run r p).map (fun x => decide (x.2 < 0)) ≠ some true) := by
  refine ⟨by decide, by decide, by decide, by decide, by decide, ?_⟩
  intro run s r p h
  cases hs : s.schedule run r p with
  | none => rw [hs] at h; simp at h
  | some x =>
    have hx := schedule_result_nonneg run s x.1 r p x.2 hs
    rw [hs] at h
    simp at h
    omega

/-- The state `switchContext` hands to `run()` is `enterContext`. -/
theorem switchContext_eq (run : RunBehaviour) (s : Scheduler) (nextPid : Int)
    (e : ProcessData) (r : Runnable) (he : s.entry nextPid = some e)
    (hr : e.process = some r) :
    s.switchContext run nextPid
      = (run r (s.enterContext nextPid)).bind (fun s1 => s1.postExecute nextPid) := by
  unfold switchContext enterContext
  rw [he]
  simp only [hr]
  cases run r { s with currentPid := nextPid } <;> rfl

/-- Claim C36, which the code does not meet: when `run()` of a process is
invoked its table state must be `EXECUTING` and the current PID must be its
PID.  After `schedule(r, 5)` on a fresh scheduler, the first iteration of
`start()` dequeues PID 0 and calls `run()` with slot 0 still `READY` and the
current PID still -1: `start()` assigns neither.  In `reschedule`, called
by `yield()` or by `sleep(10)` of process 0 with process 1 queued, PID 1 is
handed to `switchContext`, which assigns the current PID and writes
`EXECUTING` to its local copy of the entry: `run()` is called with slot 1
still `READY`.  The table `switchContext` hands to `run()` is always the
table it was called with.  The current PID of a fresh scheduler is -1, as
claimed. -/
theorem run_invoked_without_executing_state :
    ((Scheduler.init.schedule idleRun 7 5).bind (fun r => (startBegin r.1).startSelect)).map
        (fun x => (x.2, x.1.currentPid, x.1.stateOf 0))
      = some (some 0, -1, some ProcessState.READY) ∧
    ((yieldState ProcessState.READY 5 1).rescheduleSelect).map
        (fun x => (x.2, (enterContext x.1 1).currentPid, (enterContext x.1 1).stateOf 1))
      = some (some 1, 1, some ProcessState.READY) ∧
    ((yieldState ProcessState.EXECUTING 5 1).sleepSelect true 10).map
        (fun x => (x.2, (enterContext x.1 1).currentPid, (enterContext x.1 1).stateOf 1))
      = some (some 1, 1, some ProcessState.READY) ∧
    (∀ (s : Scheduler) (nextPid : Int), (enterContext s nextPid).ptable = s.ptable) ∧
    Scheduler.init.currentPid = -1 := by
  refine ⟨by decide, by decide, by decide, fun _ _ => rfl, rfl⟩

/-- Claim C38, which the code does not meet: in every reachable state each
PID in `sleepingList` must be `SLEEPING` in the table.  With the clock
feature, `scheduleInterval(r, 1, 2, 4)` on a fresh scheduler queues PID 0 in
`sleepingList` and writes the state `SLEEPING` to its local copy of the
entry; in the state the call returns, PID 0 is in `sleepingList` and slot 0
is `DEAD`. -/
theorem sleeping_pid_not_marked_sleeping :
    ∃ s : Scheduler, ReachableByCalls true idleRun s ∧ s.sleepingPids = [0] ∧
      s.readyPids = [] ∧ s.stateOf 0 = some ProcessState.DEAD ∧ ¬ s.QueuesConsistent := by
  refine ⟨{ Scheduler.init with
              nextValidPid := 1,
              sleepingList := { headItem := none, nodes := [{ value := 0, delta := 3 }] } },
    ReachableByCalls.scheduleInterval Scheduler.init _ 7 1 2 4 0 ReachableByCalls.init
      (by decide),
    by decide, by decide, by decide, ?_⟩
  intro h
  have h0 := h.2.2 0 (by decide)
  revert h0
  decide

/-- Claim C39, which the code does not meet: `tick()` must change nothing on
an empty `sleepingList`, and its wake-up loop must stop once it has popped
the last entry.  `tick()` calls `decrement()` first, which dereferences the
null `HEAD->next` of an empty list.  When the only entry is due, the loop
pops it, `peek()` answers delta -1 on the emptied list, the loop test
`delta <= 0` holds and `remove()` dereferences the null `HEAD->next`.  In
both cases `tick()` has no result. -/
theorem tick_faults_on_emptied_list (run : RunBehaviour) (s : Scheduler)
    (h : s.sleepingList.nodes = [] ∨
      ∃ n, s.sleepingList.nodes = [n] ∧ n.delta ≤ 1) :
    s.tick run = none := by
  rcases h with h | ⟨n, h, hn⟩
  · unfold tick DeltaList.decrement
    rw [h]
  · unfold tick DeltaList.decrement
    rw [h]
    have hd : ¬ (n.delta - 1 > 0) := by omega
    have hd1 : n.delta - 1 ≤ 0 := by omega
    simp only [DeltaList.peek, hd, if_false, List.length_singleton]
    simp only [wakeLoop, DeltaList.peek, DeltaList.remove, hd1, if_true]
    generalize Scheduler.entry _ n.value = e
    cases e <;> simp

/-- Claim C39, at a fresh scheduler and at scenario S3 with one sleeper due
at the next tick. -/
theorem tick_faults_on_emptied_list_witness :
    Scheduler.init.tick idleRun = none ∧
    (sleepingState [{ value := 1, delta := 1 }]).tick idleRun = none :=
  ⟨tick_faults_on_emptied_list idleRun Scheduler.init (Or.inl rfl),
   tick_faults_on_emptied_list idleRun (sleepingState [{ value := 1, delta := 1 }])
     (Or.inr ⟨{ value := 1, delta := 1 }, rfl, by decide⟩)⟩

/-- Claim C40, which the code does not meet: after every sequence of
successful allocations the hint must lie in `[0, MAX_PROCESSES)`.  `schedule`
and `scheduleInterval` assign `pid + 1` to the hint without the wrap that
`getNextAvailablePid` applies.  After `MAX_PROCESSES` calls of `schedule` on
a fresh scheduler, the last of which returns PID 127, the hint is 128, and
the next `getNextAvailablePid` reads `ptable[128]`.  With the clock feature
the same holds when the first of the calls is `scheduleInterval`. -/
theorem hint_leaves_table_after_last_pid :
    ((Scheduler.init.scheduleAll idleRun (List.replicate (MAX_PROCESSES - 1) (1, 1))).bind
        (fun s => s.schedule idleRun 1 1)).map
        (fun r => (r.2, r.1.nextValidPid, r.1.getNextAvailablePid)) = some (127, 128, none) ∧
    (∀ run : RunBehaviour, ∃ s,
        Scheduler.init.scheduleAll run (List.replicate MAX_PROCESSES (1, 1)) = some s ∧
        s.nextValidPid = MAX_PROCESSES ∧ ¬ s.HintInTable ∧ s.getNextAvailablePid = none) ∧
    hintPastTable.map (fun s => (s.nextValidPid, s.getNextAvailablePid)) = some (128, none) := by
  refine ⟨by decide, ?_, by decide⟩
  intro run
  have h0 : (init).PrefixTable [] :=
    ⟨by simp, by simp, by simp [init], rfl, rfl, rfl⟩
  obtain ⟨s, l, hs, hl, hlen⟩ :=
    scheduleAll_of_prefixTable run (List.replicate MAX_PROCESSES (1, 1)) init [] h0
      (by simp)
  have hlen1 : l.length = MAX_PROCESSES := by simpa using hlen
  obtain ⟨_, _, _, hn, _, _⟩ := hl
  have hn1 : s.nextValidPid = (MAX_PROCESSES : Int) := by rw [hn, hlen1]
  refine ⟨s, hs, hn1, ?_, ?_⟩
  · intro h
    have := h.2.2
    omega
  · unfold getNextAvailablePid entry
    rw [hn1]
    simp

end Scheduler

/-! ## Theorems: DCPResponse, the digit fields -/

namespace DCP

end DCP

/-! ## Theorems: Scheduler, reads that leave the table -/

namespace Scheduler

/-- Where `getNextAvailablePid` has a result, the probe with reads next to
the table has the same one. -/
theorem getNextAvailablePidReading_eq (outside : Int → ProcessData) (s : Scheduler)
    (pid : Int) (h : s.getNextAvailablePid = some pid) :
    s.getNextAvailablePidReading outside = pid := by
  unfold getNextAvailablePid at h
  unfold getNextAvailablePidReading entryReading
  cases he : s.entry s.nextValidPid with
  | none => rw [he] at h; simp at h
  | some e =>
    simp only [he] at h ⊢
    by_cases hd : e.state ≠ ProcessState.DEAD
    · rw [if_pos hd] at h ⊢
      by_cases hw : (s.nextValidPid + 1) % (MAX_PROCESSES : Int) = s.nextValidPid
      · rw [if_pos hw] at h ⊢
        exact Option.some.inj h
      · rw [if_neg hw] at h ⊢
        exact Option.some.inj h
    · rw [if_neg hd] at h ⊢
      exact Option.some.inj h

/-- Where `scheduleInterval` has a result, `scheduleIntervalReading` has the
same one, whatever lies next to the table. -/
theorem scheduleIntervalReading_eq (outside : Int → ProcessData) (clock : Bool)
    (run : RunBehaviour) (s : Scheduler) (process : Runnable)
    (interval repetitions priority : Int) (r : Scheduler × Int)
    (h : s.scheduleInterval clock run process interval repetitions priority = some r) :
    s.scheduleIntervalReading outside clock run process interval repetitions priority
      = some r := by
  unfold scheduleInterval at h
  unfold scheduleIntervalReading
  cases clock with
  | false => simpa using h
  | true =>
    simp only [if_true] at h ⊢
    cases hg : s.getNextAvailablePid with
    | none => rw [hg] at h; simp at h
    | some pid =>
      rw [hg] at h
      simp only at h
      rw [getNextAvailablePidReading_eq outside s pid hg]
      cases he : s.entry pid with
      | none => rw [he] at h; simp at h
      | some e =>
        rw [he] at h
        exact h

/-- Claim C19: with the clock feature enabled, `scheduleInterval` with a
negative interval returns -2 and leaves the process table, `readyList`,
`sleepingList` and the allocation hint as they were.  This holds in every
state whose hint is not negative, with or without a free slot, and whatever
the probe reads when the hint has left the table: the probe and the copy of
the entry only read, the probe never returns -1, and the test of the
interval comes before every assignment. -/
theorem negative_interval_returns_minus_two (outside : Int → ProcessData)
    (run : RunBehaviour) (s : Scheduler) (process : Runnable)
    (interval repetitions priority : Int)
    (hhint : 0 ≤ s.nextValidPid) (hneg : interval < 0) :
    s.scheduleIntervalReading outside true run process interval repetitions priority
      = some (s, -2) := by
  have hM : ((MAX_PROCESSES : Nat) : Int) = 128 := rfl
  have hpid : ¬ (s.getNextAvailablePidReading outside < 0) := by
    unfold getNextAvailablePidReading
    rw [hM]
    split
    · split
      · omega
      · omega
    · omega
  unfold scheduleIntervalReading
  simp only [if_true, hpid, if_false, hneg]

/-- Claim C19 on a fresh scheduler, and on a state whose hint has left the
table with a live entry read behind the table. -/
theorem negative_interval_returns_minus_two_witness :
    ((0 : Int) ≤ Scheduler.init.nextValidPid ∧ (-1 : Int) < 0) ∧
    Scheduler.init.scheduleIntervalReading (fun _ => ProcessData.zero) true idleRun 7 (-1) 2 4
      = some (Scheduler.init, -2) ∧
    ({ Scheduler.init with nextValidPid := 128 } : Scheduler).scheduleIntervalReading
        (fun _ => oneShot 9 ProcessState.READY 9) true idleRun 7 (-1) 2 4
      = some ({ Scheduler.init with nextValidPid := 128 }, -2) :=
  ⟨⟨by decide, by decide⟩,
   negative_interval_returns_minus_two (fun _ => ProcessData.zero) idleRun Scheduler.init
     7 (-1) 2 4 (by decide) (by decide),
   negative_interval_returns_minus_two (fun _ => oneShot 9 ProcessState.READY 9) idleRun
     { Scheduler.init with nextValidPid := 128 } 7 (-1) 2 4 (by decide) (by decide)⟩

end Scheduler

/-! ## Theorems: DCPResponse, every reading of the undeclared name -/

namespace DCP

/-- With `writeBuffer` as the store the loop is `parseSessionIdLoop`. -/
theorem parseSessionIdLoopWith_writeBuffer (remaining : Nat) :
    ∀ (charIndex : Nat) (st : ParseState),
      parseSessionIdLoopWith writeBuffer remaining charIndex st
        = parseSessionIdLoop remaining charIndex st := by
  induction remaining with
  | zero => intro charIndex st; rfl
  | succ n ih =>
    intro charIndex st
    unfold parseSessionIdLoopWith parseSessionIdLoop
    simp only [ih]

/-- With `writeBuffer` as the store the loop is `parseBodyLoop`. -/
theorem parseBodyLoopWith_writeBuffer (remaining : Nat) :
    ∀ (charIndex : Nat) (st : ParseState),
      parseBodyLoopWith writeBuffer remaining charIndex st
        = parseBodyLoop remaining charIndex st := by
  induction remaining with
  | zero => intro charIndex st; rfl
  | succ n ih =>
    intro charIndex st
    unfold parseBodyLoopWith parseBodyLoop
    simp only [ih]

/-- With `writeBuffer` as the store the constructor is `parseResponse`. -/
theorem parseResponseWith_writeBuffer (ind : Indeterminate) (client : WiFiClient) :
    parseResponseWith writeBuffer ind client = parseResponse ind client := by
  have hs : ∀ st, parseSessionIdWith writeBuffer st = parseSessionId st := by
    intro st
    unfold parseSessionIdWith parseSessionId
    rw [parseSessionIdLoopWith_writeBuffer]
  have hf : ∀ st, parseFromStatusWith writeBuffer ind st = parseFromStatus ind st := by
    intro st
    unfold parseFromStatusWith parseFromStatus parseBodyWith parseBody
    simp only [parseBodyLoopWith_writeBuffer]
  unfold parseResponseWith parseResponse
  simp only [hs, hf]

end DCP

/-! ## Theorems: Scheduler, the lifetime of the list objects -/

namespace Lifetime

/-- Claim C3, which the code does not meet: in a state with fewer than
`MAX_PROCESSES` live slots `schedule(r, p)` must succeed and leave the PID in
`readyList`.  The constructor of `SchedulerImplementation` assigns a
temporary to each list member; the copy shares the `Implementation` of the
temporary, which the destructor of the temporary deletes at the end of the
statement.  On the scheduler the constructor leaves, every slot is `DEAD`,
the `Implementation` objects of `readyList` and `sleepingList` are deleted
and the ones the members were constructed with are no longer referred to.
`schedule(r, p)` takes PID 0, writes slot 0 and then calls
`readyList.enqueue`, which reads the deleted `Implementation`: no call of
`schedule` on the fresh scheduler has a result. -/
theorem first_schedule_uses_deleted_list :
    liveCount construct = 0 ∧
    getNextAvailablePid construct = some 0 ∧
    (construct.readyList, construct.heap.queues)
      = (1, [some PriorityQueue.new, none]) ∧
    (construct.sleepingList, construct.heap.lists)
      = (1, [some DeltaList.new, none]) ∧
    (∀ (priority : Int), enqueueReady construct 0 priority = none) ∧
    (∀ (yield : SchedulerImplementation → Option SchedulerImplementation)
        (process : Runnable) (priority : Int),
      schedule yield construct process priority = none) := by
  refine ⟨by decide, by decide, by decide, by decide, fun _ => rfl, ?_⟩
  intro yield process priority
  have hg : getNextAvailablePid construct = some 0 := by decide
  have he : entry construct 0 = some ProcessData.zero := by decide
  unfold schedule
  rw [hg]
  simp only [lt_self_iff_false, if_false, he]
  rfl

end Lifetime
end SmartLights
